import Mathlib

/-!
# esp32-crypto-api: the signing facade and its wolfSSL adapter

A shallow embedding of `components/CryptoAPI/src/CryptoAPI.cpp` (the facade that
routes every operation to one of three backend adapters) and of
`components/CryptoAPI/src/WolfsslModule.cpp` (the wolfSSL adapter), with the
enumerations of `components/CryptoAPI/include/CryptoApiCommons.h`.

Conventions of the embedding.

* Code outside the embedded files (the mbedTLS and micro-ecc adapters when seen
  from the facade, the wolfSSL library when seen from the wolfSSL adapter) is an
  explicit parameter that supplies the value each foreign call returns.
* Every call that leaves the embedded code is written to a list of events, in
  program order, so that "which adapter was invoked" and "which native structure
  was released" are observable.
* Pointers handed through the facade are machine addresses (`Nat`, `0` is the null
  pointer). A pointer member of the wolfSSL adapter is an `Option Nat`: `none` is a
  member that no assignment has reached yet.
* `int` values are `Int`; `size_t` values are `Nat`; where the source compares an
  `int` with a `size_t` the `int` is first converted to the 32-bit `size_t` of the
  ESP32 (`toSizeT`).
-/

/-! ## Enumerations (CryptoApiCommons.h, CryptoAPI.h) -/

/-- The enumeration `Algorithms` of CryptoApiCommons.h, in declaration order. -/
inductive Algorithms
  | ECDSA_BP256R1
  | ECDSA_BP512R1
  | ECDSA_SECP256R1
  | ECDSA_SECP521R1
  | EDDSA_25519
  | EDDSA_448
  | RSA
  deriving DecidableEq, Repr

/-- The enumeration `Hashes` of CryptoApiCommons.h, in declaration order. -/
inductive Hashes
  | MY_SHA_256
  | MY_SHA_512
  | MY_SHA3_256
  | MY_SHAKE_256
  deriving DecidableEq, Repr

/-- The enumeration `Libraries`, whose three enumerators CryptoAPI.cpp names. -/
inductive Libraries
  | MBEDTLS_LIB
  | WOLFSSL_LIB
  | MICROECC_LIB
  deriving DecidableEq, Repr

/-! ## The facade (CryptoAPI.cpp) -/

/-- The names of the member functions the three adapters share. -/
inductive Operation
  | init
  | get_signature_size
  | gen_rsa_keys
  | gen_keys
  | sign
  | verify
  | close
  deriving DecidableEq, Repr

/-- One call of an adapter member function, with the arguments the facade passes.
The adapters differ in arity: `MbedtlsModule::init(algorithm, hash)`,
`WolfsslModule::init(algorithm, hash, length_of_shake256)`,
`MicroeccModule::init(hash)`; mbedTLS and wolfSSL sign and verify take four
arguments, micro-ecc takes three. -/
inductive AdapterCall
  | init_algorithm_hash (algorithm : Algorithms) (hash : Hashes)
  | init_algorithm_hash_length (algorithm : Algorithms) (hash : Hashes) (length_of_shake256 : Nat)
  | init_hash (hash : Hashes)
  | get_signature_size
  | gen_rsa_keys (rsa_key_size : Int) (rsa_exponent : Int)
  | gen_keys
  | sign_with_length (message message_length signature signature_length : Nat)
  | sign_fixed (message message_length signature : Nat)
  | verify_with_length (message message_length signature signature_length : Nat)
  | verify_fixed (message message_length signature : Nat)
  | close
  deriving DecidableEq, Repr

/-- The member function an adapter call names. -/
def AdapterCall.operation : AdapterCall → Operation
  | .init_algorithm_hash _ _ => .init
  | .init_algorithm_hash_length _ _ _ => .init
  | .init_hash _ => .init
  | .get_signature_size => .get_signature_size
  | .gen_rsa_keys _ _ => .gen_rsa_keys
  | .gen_keys => .gen_keys
  | .sign_with_length _ _ _ _ => .sign
  | .sign_fixed _ _ _ => .sign
  | .verify_with_length _ _ _ _ => .verify
  | .verify_fixed _ _ _ => .verify
  | .close => .close

/-- What the facade does that is visible outside it. -/
inductive Event
  /-- Embeds `module->f(args)` on the adapter object of `library`. -/
  | invoke (library : Libraries) (call : AdapterCall)
  /-- Embeds `delete module` on the adapter object of `library`. -/
  | delete (library : Libraries)
  /-- One `ESP_LOGI(TAG, ...)` line. -/
  | ESP_LOGI (line : String)
  deriving DecidableEq, Repr

/-- The adapters as the facade sees them: the `int` an adapter member function
returns, which may depend on everything that happened before the call. -/
abbrev Adapters := List Event → Libraries → AdapterCall → Int

/-- The data member of `CryptoAPI` that the dispatch reads. The three adapter
pointers are assigned once, in the constructor, and never change; whether their
targets are still alive is read off the event list (`Event.delete`). -/
structure CryptoAPI where
  chosen_library : Libraries
  deriving DecidableEq, Repr

/-- The expression `module->f(args)`: its value and the event it leaves. -/
def CryptoAPI.invoke (adapters : Adapters) (history : List Event) (library : Libraries)
    (call : AdapterCall) : Int × List Event :=
  (adapters history library call, [Event.invoke library call])

/-- The lines `CryptoAPI::print_init_configuration` logs. -/
def CryptoAPI.print_init_configuration (library : Libraries) (algorithm : Algorithms)
    (hash : Hashes) (length_of_shake256 : Nat) : List Event :=
  let library_str :=
    match library with
    | .MBEDTLS_LIB => "MBEDTLS"
    | .WOLFSSL_LIB => "WOLFSSL"
    | .MICROECC_LIB => "MICROECC"
  let algorithm_str :=
    match algorithm with
    | .ECDSA_BP256R1 => "ECDSA_BP256R1"
    | .ECDSA_BP512R1 => "ECDSA_BP512R1"
    | .ECDSA_SECP256R1 => "ECDSA_SECP256R1"
    | .ECDSA_SECP521R1 => "ECDSA_SECP521R1"
    | .EDDSA_25519 => "EDDSA_25519"
    | .EDDSA_448 => "EDDSA_448"
    | .RSA => "RSA"
  let hash_str :=
    match hash with
    | .MY_SHA_256 => "SHA_256"
    | .MY_SHA_512 => "SHA_512"
    | .MY_SHA3_256 => "SHA3_256"
    | .MY_SHAKE_256 => "SHAKE_256"
  [Event.ESP_LOGI ("> INITIALIZED LIBRARY [ " ++ library_str ++ " ] WITH ALGORITHM [ "
      ++ algorithm_str ++ " ] AND HASH [ " ++ hash_str ++ " ]")]
    ++ (if hash = Hashes.MY_SHAKE_256 then
          [Event.ESP_LOGI ("SHAKE_256 LENGTH [ " ++ toString length_of_shake256 ++ " ]")]
        else [])

/-- Embeds `CryptoAPI::init`: the value returned, the facade afterwards, the events. -/
def CryptoAPI.init (adapters : Adapters) (history : List Event) (self : CryptoAPI)
    (library : Libraries) (algorithm : Algorithms) (hash : Hashes) (length_of_shake256 : Nat) :
    Int × CryptoAPI × List Event :=
  let printed := CryptoAPI.print_init_configuration library algorithm hash length_of_shake256
  let self : CryptoAPI := { self with chosen_library := library }
  let deleted :=
    if library = Libraries.MBEDTLS_LIB then
      [Event.delete Libraries.WOLFSSL_LIB, Event.delete Libraries.MICROECC_LIB]
    else []
  let before := history ++ printed ++ deleted
  if self.chosen_library = Libraries.MBEDTLS_LIB then
    let r := CryptoAPI.invoke adapters before .MBEDTLS_LIB (.init_algorithm_hash algorithm hash)
    (r.1, self, printed ++ deleted ++ r.2)
  else if self.chosen_library = Libraries.WOLFSSL_LIB then
    let r := CryptoAPI.invoke adapters before .WOLFSSL_LIB
      (.init_algorithm_hash_length algorithm hash length_of_shake256)
    (r.1, self, printed ++ deleted ++ r.2)
  else
    let r := CryptoAPI.invoke adapters before .MICROECC_LIB (.init_hash hash)
    (r.1, self, printed ++ deleted ++ r.2)

/-- Embeds `CryptoAPI::get_signature_size`. -/
def CryptoAPI.get_signature_size (adapters : Adapters) (history : List Event) (self : CryptoAPI) :
    Int × List Event :=
  if self.chosen_library = Libraries.MBEDTLS_LIB then
    CryptoAPI.invoke adapters history .MBEDTLS_LIB .get_signature_size
  else if self.chosen_library = Libraries.WOLFSSL_LIB then
    CryptoAPI.invoke adapters history .WOLFSSL_LIB .get_signature_size
  else (64, [])

/-- Embeds `CryptoAPI::gen_rsa_keys`. -/
def CryptoAPI.gen_rsa_keys (adapters : Adapters) (history : List Event) (self : CryptoAPI)
    (rsa_key_size rsa_exponent : Int) : Int × List Event :=
  if self.chosen_library = Libraries.MBEDTLS_LIB then
    CryptoAPI.invoke adapters history .MBEDTLS_LIB (.gen_rsa_keys rsa_key_size rsa_exponent)
  else if self.chosen_library = Libraries.WOLFSSL_LIB then
    CryptoAPI.invoke adapters history .WOLFSSL_LIB (.gen_rsa_keys rsa_key_size rsa_exponent)
  else (-1, [])

/-- Embeds `CryptoAPI::gen_keys`. -/
def CryptoAPI.gen_keys (adapters : Adapters) (history : List Event) (self : CryptoAPI) :
    Int × List Event :=
  if self.chosen_library = Libraries.WOLFSSL_LIB then
    CryptoAPI.invoke adapters history .WOLFSSL_LIB .gen_keys
  else if self.chosen_library = Libraries.MBEDTLS_LIB then
    CryptoAPI.invoke adapters history .MBEDTLS_LIB .gen_keys
  else CryptoAPI.invoke adapters history .MICROECC_LIB .gen_keys

/-- Embeds `CryptoAPI::sign(message, message_length, signature, signature_length)`. -/
def CryptoAPI.sign (adapters : Adapters) (history : List Event) (self : CryptoAPI)
    (message message_length signature signature_length : Nat) : Int × List Event :=
  if self.chosen_library = Libraries.MBEDTLS_LIB then
    CryptoAPI.invoke adapters history .MBEDTLS_LIB
      (.sign_with_length message message_length signature signature_length)
  else if self.chosen_library = Libraries.WOLFSSL_LIB then
    CryptoAPI.invoke adapters history .WOLFSSL_LIB
      (.sign_with_length message message_length signature signature_length)
  else
    CryptoAPI.invoke adapters history .MICROECC_LIB (.sign_fixed message message_length signature)

/-- Embeds `CryptoAPI::sign(message, message_length, signature)`, the overload without a
length; it passes the null pointer on. -/
def CryptoAPI.sign_without_length (adapters : Adapters) (history : List Event) (self : CryptoAPI)
    (message message_length signature : Nat) : Int × List Event :=
  if self.chosen_library ≠ Libraries.MICROECC_LIB then (-1000, [])
  else CryptoAPI.sign adapters history self message message_length signature 0

/-- Embeds `CryptoAPI::verify(message, message_length, signature, signature_length)`. -/
def CryptoAPI.verify (adapters : Adapters) (history : List Event) (self : CryptoAPI)
    (message message_length signature signature_length : Nat) : Int × List Event :=
  if self.chosen_library = Libraries.MBEDTLS_LIB then
    CryptoAPI.invoke adapters history .MBEDTLS_LIB
      (.verify_with_length message message_length signature signature_length)
  else if self.chosen_library = Libraries.WOLFSSL_LIB then
    CryptoAPI.invoke adapters history .WOLFSSL_LIB
      (.verify_with_length message message_length signature signature_length)
  else
    CryptoAPI.invoke adapters history .MICROECC_LIB (.verify_fixed message message_length signature)

/-- Embeds `CryptoAPI::verify(message, message_length, signature)`, the overload without
a length. -/
def CryptoAPI.verify_without_length (adapters : Adapters) (history : List Event)
    (self : CryptoAPI) (message message_length signature : Nat) : Int × List Event :=
  if self.chosen_library ≠ Libraries.MICROECC_LIB then (-1000, [])
  else CryptoAPI.verify adapters history self message message_length signature 0

/-- Embeds `CryptoAPI::close` (a `void` function: only its events). -/
def CryptoAPI.close (adapters : Adapters) (history : List Event) (self : CryptoAPI) :
    List Event :=
  if self.chosen_library = Libraries.MBEDTLS_LIB then
    (CryptoAPI.invoke adapters history .MBEDTLS_LIB .close).2
  else if self.chosen_library = Libraries.WOLFSSL_LIB then
    (CryptoAPI.invoke adapters history .WOLFSSL_LIB .close).2
  else (CryptoAPI.invoke adapters history .MICROECC_LIB .close).2

/-- Embeds `CryptoAPI::get_chosen_library`. -/
def CryptoAPI.get_chosen_library (self : CryptoAPI) : Libraries :=
  self.chosen_library

/-- The arguments of one `CryptoAPI::init` call. -/
structure InitArguments where
  library : Libraries
  algorithm : Algorithms
  hash : Hashes
  length_of_shake256 : Nat
  deriving DecidableEq, Repr

/-- A sequence of `CryptoAPI::init` calls, each seeing the events of the earlier
ones: the facade and the whole event list afterwards. -/
def CryptoAPI.init_sequence (adapters : Adapters) :
    List InitArguments → CryptoAPI × List Event → CryptoAPI × List Event
  | [], state => state
  | a :: rest, (self, history) =>
    let r := CryptoAPI.init adapters history self a.library a.algorithm a.hash a.length_of_shake256
    CryptoAPI.init_sequence adapters rest (r.2.1, history ++ r.2.2)

/-! ## The wolfSSL adapter (WolfsslModule.cpp): data -/

/-- Conversion of an `int` to `size_t`, which the source's comparisons of an `int`
with a `size_t` perform; `size_t` is 32 bits wide on the ESP32. -/
def toSizeT (x : Int) : Nat :=
  (x % 4294967296).toNat

/-- The wolfSSL structures the adapter allocates with `malloc`. -/
inductive NativeStruct
  | WC_RNG
  | ed25519_key
  | RsaKey
  | ecc_key
  | ed448_key
  deriving DecidableEq, Repr

/-- The four wolfSSL curve identifiers `get_ecc_curve_id` returns. -/
inductive ecc_curve_id
  | ECC_SECP256R1
  | ECC_SECP521R1
  | ECC_BRAINPOOLP256R1
  | ECC_BRAINPOOLP512R1
  deriving DecidableEq, Repr

/-- The three wolfSSL `CertType` values `get_public_key_pem` uses. -/
inductive CertType
  | PUBLICKEY_TYPE
  | RSA_PUBLICKEY_TYPE
  | ECC_PUBLICKEY_TYPE
  deriving DecidableEq, Repr

/-- What the wolfSSL adapter does that is visible outside it, with the pointer
arguments that identify the native structure a call works on. -/
inductive NativeEvent
  | wolfCrypt_Init
  | wolfCrypt_Cleanup
  /-- Embeds `malloc(sizeof(T))` for a wolfSSL structure `T`, and the address it returned. -/
  | malloc (kind : NativeStruct) (address : Nat)
  /-- Embeds `malloc(n * sizeof(byte))` of a scratch buffer. -/
  | malloc_bytes (buffer : String) (size : Nat)
  /-- Embeds `free` of a scratch buffer. -/
  | free_bytes (buffer : String)
  | wc_InitRng (rng : Option Nat)
  | wc_ed25519_init (key : Option Nat)
  | wc_InitRsaKey (key : Option Nat)
  | wc_ecc_init (key : Option Nat)
  | wc_ed448_init (key : Option Nat)
  | wc_ed25519_make_key (rng : Option Nat) (key_size : Int) (key : Option Nat)
  | wc_ecc_make_key_ex (rng : Option Nat) (key_size : Int) (key : Option Nat)
      (curve_id : ecc_curve_id)
  | wc_ed448_make_key (rng : Option Nat) (key_size : Int) (key : Option Nat)
  | wc_MakeRsaKey (key : Option Nat) (size : Nat) (e : Int) (rng : Option Nat)
  | wc_ed25519ph_sign_hash (key : Option Nat)
  | wc_RsaSSL_Sign (key : Option Nat) (rng : Option Nat)
  | wc_ecc_sign_hash (rng : Option Nat) (key : Option Nat)
  | wc_ed448ph_sign_hash (key : Option Nat)
  | wc_ed25519ph_verify_hash (key : Option Nat)
  | wc_RsaSSL_Verify (key : Option Nat)
  | wc_ecc_verify_hash (key : Option Nat)
  | wc_ed448ph_verify_hash (key : Option Nat)
  | wc_ed25519_export_public (key : Option Nat)
  | wc_RsaKeyToPublicDer (key : Option Nat) (capacity : Nat)
  | wc_EccPublicKeyToDer (key : Option Nat) (capacity : Nat)
  | wc_ed448_export_public (key : Option Nat)
  | wc_DerToPem (der_size : Nat) (capacity : Nat) (cert_type : CertType)
  /-- The store `public_key_pem[index] = 0`. -/
  | write_terminator (index : Nat)
  | wc_FreeRng (rng : Option Nat)
  | wc_FreeRsaKey (key : Option Nat)
  | wc_ed25519_free (key : Option Nat)
  | wc_ed448_free (key : Option Nat)
  | wc_ecc_free (key : Option Nat)
  | log_error (msg : String)
  | log_success (msg : String)
  | print_elapsed_time (label : String)
  | print_used_memory (label : String)
  | ESP_LOGE (line : String)
  | ESP_LOGI (line : String)
  deriving DecidableEq, Repr

/-- The structure an event allocates, and where. -/
def NativeEvent.allocation : NativeEvent → Option (NativeStruct × Nat)
  | .malloc kind address => some (kind, address)
  | _ => none

/-- The structure an event hands to a wolfSSL release routine, and the pointer
it hands over. -/
def NativeEvent.release : NativeEvent → Option (NativeStruct × Option Nat)
  | .wc_FreeRng rng => some (.WC_RNG, rng)
  | .wc_FreeRsaKey key => some (.RsaKey, key)
  | .wc_ed25519_free key => some (.ed25519_key, key)
  | .wc_ed448_free key => some (.ed448_key, key)
  | .wc_ecc_free key => some (.ecc_key, key)
  | _ => none

/-- Every allocation of an event list, in order. -/
def allocations (events : List NativeEvent) : List (NativeStruct × Nat) :=
  events.filterMap NativeEvent.allocation

/-- Every release of an event list, in order. -/
def releases (events : List NativeEvent) : List (NativeStruct × Option Nat) :=
  events.filterMap NativeEvent.release

/-- What a wolfSSL one-shot hash function leaves: its status and the digest. -/
structure HashOutcome where
  status : Int
  digest : List Nat
  deriving DecidableEq, Repr

/-- What a wolfSSL sign primitive leaves: its return value, the signature bytes
and the length it stored through its length pointer. -/
structure SignOutcome where
  status : Int
  signature : List Nat
  outLen : Nat
  deriving DecidableEq, Repr

/-- What a wolfSSL verify primitive leaves: its return value and the flag it
stored through its result pointer. -/
structure VerifyOutcome where
  status : Int
  res : Int
  deriving DecidableEq, Repr

/-- What `wc_RsaSSL_Verify` leaves: its return value and the bytes it decrypted. -/
structure RsaVerifyOutcome where
  status : Int
  out : List Nat
  deriving DecidableEq, Repr

/-- What `wc_ed25519_export_public` / `wc_ed448_export_public` leave: the return
value and the length stored through the length pointer. -/
structure ExportOutcome where
  status : Int
  outLen : Nat
  deriving DecidableEq, Repr

/-- The wolfSSL library and the C allocator as the adapter sees them: what each
foreign function returns. Nothing is assumed about these values. -/
structure Wolfssl where
  malloc : NativeStruct → Nat
  ECC_MAX_SIG_SIZE : Int
  wc_InitRng : Int
  wc_ed25519_init : Int
  wc_InitRsaKey : Int
  wc_ecc_init : Int
  wc_ed448_init : Int
  wc_ecc_get_curve_size_from_id : ecc_curve_id → Int
  wc_ed25519_make_key : Int
  wc_ecc_make_key_ex : Int
  wc_ed448_make_key : Int
  wc_MakeRsaKey : Int
  wc_Sha256Hash : List Nat → Nat → HashOutcome
  wc_Sha512Hash : List Nat → Nat → HashOutcome
  wc_Sha3_256Hash : List Nat → Nat → HashOutcome
  wc_Shake256Hash : List Nat → Nat → Nat → HashOutcome
  wc_ed25519ph_sign_hash : List Nat → Nat → Nat → SignOutcome
  wc_RsaSSL_Sign : List Nat → Nat → Nat → SignOutcome
  wc_ecc_sign_hash : List Nat → Nat → Nat → SignOutcome
  wc_ed448ph_sign_hash : List Nat → Nat → Nat → SignOutcome
  wc_ed25519ph_verify_hash : List Nat → Nat → List Nat → Nat → VerifyOutcome
  wc_RsaSSL_Verify : List Nat → Nat → Nat → RsaVerifyOutcome
  wc_ecc_verify_hash : List Nat → Nat → List Nat → Nat → VerifyOutcome
  wc_ed448ph_verify_hash : List Nat → Nat → List Nat → Nat → VerifyOutcome
  wc_ed25519_export_public : Nat → ExportOutcome
  wc_RsaKeyToPublicDer : Nat → Int
  wc_EccPublicKeyToDer : Nat → Int
  wc_ed448_export_public : Nat → ExportOutcome
  wc_DerToPem : Nat → Nat → CertType → Int

/-- Modelled from the spec: the wolfSSL macro `ED25519_PUB_KEY_SIZE`, defined in
the library's headers; the spec gives the raw Ed25519 public key 32 bytes. -/
def ED25519_PUB_KEY_SIZE : Int := 32

/-- Modelled from the spec: the wolfSSL macro `ED448_PUB_KEY_SIZE`, defined in the
library's headers; the spec gives the raw Ed448 public key 57 bytes. -/
def ED448_PUB_KEY_SIZE : Int := 57

/-- Modelled from the spec: the wolfSSL macro `ED25519_SIG_SIZE`, defined in the
library's headers; the spec gives an Ed25519 signature 64 bytes. -/
def ED25519_SIG_SIZE : Int := 64

/-- Modelled from the spec: the wolfSSL macro `ED448_SIG_SIZE`, defined in the
library's headers; the spec gives an Ed448 signature 114 bytes. -/
def ED448_SIG_SIZE : Int := 114

/-- The data members of `CryptoApiCommons` (CryptoApiCommons.h). -/
structure CryptoApiCommons where
  chosen_algorithm : Algorithms
  chosen_hash : Hashes
  shake256_hash_length : Nat
  deriving DecidableEq, Repr

/-- Embeds `CryptoApiCommons::get_chosen_algorithm`. -/
def CryptoApiCommons.get_chosen_algorithm (self : CryptoApiCommons) : Algorithms :=
  self.chosen_algorithm

/-- Embeds `CryptoApiCommons::get_chosen_hash`. -/
def CryptoApiCommons.get_chosen_hash (self : CryptoApiCommons) : Hashes :=
  self.chosen_hash

/-- Modelled from the spec: `CryptoApiCommons::get_hash_length`, whose body is in
CryptoApiCommons.cpp, not among the sources: "constant lookup for the three fixed
hashes, caller-configured value for the variable one", the fixed hashes being 256,
512 and 256 bits wide. -/
def CryptoApiCommons.get_hash_length (self : CryptoApiCommons) : Nat :=
  match self.chosen_hash with
  | .MY_SHA_256 => 32
  | .MY_SHA_512 => 64
  | .MY_SHA3_256 => 32
  | .MY_SHAKE_256 => self.shake256_hash_length

/-- The data members of `WolfsslModule`: the shared configuration it holds by
reference, its five pointers to native structures and the RSA bit length. -/
structure WolfsslModule where
  commons : CryptoApiCommons
  rng : Option Nat
  wolf_ed25519_key : Option Nat
  wolf_rsa_key : Option Nat
  wolf_ecc_key : Option Nat
  wolf_ed448_key : Option Nat
  rsa_key_size : Nat
  deriving DecidableEq, Repr

/-- The constructor `WolfsslModule::WolfsslModule(commons)`: it binds the
reference and assigns no other member, so the pointers are not set and
`rsa_key_size` holds whatever the memory held. -/
def WolfsslModule.new (commons : CryptoApiCommons) (rsa_key_size : Nat) : WolfsslModule :=
  { commons := commons, rng := none, wolf_ed25519_key := none, wolf_rsa_key := none,
    wolf_ecc_key := none, wolf_ed448_key := none, rsa_key_size := rsa_key_size }

/-- The result of a member function that returns `int` and may change the module. -/
structure Outcome where
  ret : Int
  self : WolfsslModule
  events : List NativeEvent
  deriving DecidableEq, Repr

/-! ## The wolfSSL adapter: lifecycle -/

/-- Embeds `WolfsslModule::get_ecc_curve_id`. -/
def WolfsslModule.get_ecc_curve_id (self : WolfsslModule) : ecc_curve_id :=
  if self.commons.get_chosen_algorithm = Algorithms.ECDSA_SECP256R1 then .ECC_SECP256R1
  else if self.commons.get_chosen_algorithm = Algorithms.ECDSA_SECP521R1 then .ECC_SECP521R1
  else if self.commons.get_chosen_algorithm = Algorithms.ECDSA_BP256R1 then .ECC_BRAINPOOLP256R1
  else .ECC_BRAINPOOLP512R1

/-- Embeds `WolfsslModule::get_key_size`. -/
def WolfsslModule.get_key_size (lib : Wolfssl) (self : WolfsslModule) (curve_id : ecc_curve_id) :
    Int :=
  if self.commons.get_chosen_algorithm = Algorithms.EDDSA_25519 then ED25519_PUB_KEY_SIZE
  else if self.commons.get_chosen_algorithm = Algorithms.EDDSA_448 then ED448_PUB_KEY_SIZE
  else if self.commons.get_chosen_algorithm = Algorithms.RSA then ((self.rsa_key_size / 8 : Nat) : Int)
  else lib.wc_ecc_get_curve_size_from_id curve_id

/-- Embeds `WolfsslModule::get_public_key_size`. -/
def WolfsslModule.get_public_key_size (lib : Wolfssl) (self : WolfsslModule) : Int :=
  self.get_key_size lib self.get_ecc_curve_id

/-- Embeds `WolfsslModule::init`. -/
def WolfsslModule.init (lib : Wolfssl) (self : WolfsslModule) (algorithm : Algorithms)
    (hash : Hashes) (length_of_shake256 : Nat) : Outcome :=
  let self : WolfsslModule :=
    { self with commons :=
        { chosen_algorithm := algorithm, chosen_hash := hash,
          shake256_hash_length := length_of_shake256 } }
  let self : WolfsslModule := { self with rng := some (lib.malloc .WC_RNG) }
  let started : List NativeEvent :=
    [.wolfCrypt_Init, .malloc .WC_RNG (lib.malloc .WC_RNG), .wc_InitRng self.rng]
  let finished : List NativeEvent :=
    [.print_elapsed_time "init", .print_used_memory "init", .log_success "init"]
  let ret := lib.wc_InitRng
  if ret ≠ 0 then
    { ret := ret, self := self, events := started ++ [.log_error "wc_InitRng"] }
  else
    match self.commons.get_chosen_algorithm with
    | .EDDSA_25519 =>
      let self : WolfsslModule := { self with wolf_ed25519_key := some (lib.malloc .ed25519_key) }
      let events := started ++
        [.malloc .ed25519_key (lib.malloc .ed25519_key), .wc_ed25519_init self.wolf_ed25519_key]
      let ret := lib.wc_ed25519_init
      if ret ≠ 0 then
        { ret := ret, self := self, events := events ++ [.log_error "wc_ed25519_init"] }
      else { ret := 0, self := self, events := events ++ finished }
    | .RSA =>
      let self : WolfsslModule := { self with wolf_rsa_key := some (lib.malloc .RsaKey) }
      let events := started ++
        [.malloc .RsaKey (lib.malloc .RsaKey), .wc_InitRsaKey self.wolf_rsa_key]
      let ret := lib.wc_InitRsaKey
      if ret ≠ 0 then
        { ret := ret, self := self, events := events ++ [.log_error "wc_InitRsaKey"] }
      else { ret := 0, self := self, events := events ++ finished }
    | .ECDSA_BP256R1 | .ECDSA_BP512R1 | .ECDSA_SECP256R1 | .ECDSA_SECP521R1 =>
      let self : WolfsslModule := { self with wolf_ecc_key := some (lib.malloc .ecc_key) }
      let events := started ++
        [.malloc .ecc_key (lib.malloc .ecc_key), .wc_ecc_init self.wolf_ecc_key]
      let ret := lib.wc_ecc_init
      if ret ≠ 0 then
        { ret := ret, self := self, events := events ++ [.log_error "wc_ecc_init"] }
      else { ret := 0, self := self, events := events ++ finished }
    | .EDDSA_448 =>
      let self : WolfsslModule := { self with wolf_ed448_key := some (lib.malloc .ed448_key) }
      let events := started ++
        [.malloc .ed448_key (lib.malloc .ed448_key), .wc_ed448_init self.wolf_ed448_key]
      let ret := lib.wc_ed448_init
      if ret ≠ 0 then
        { ret := ret, self := self, events := events ++ [.log_error "wc_ed448_init"] }
      else { ret := 0, self := self, events := events ++ finished }

/-- Embeds `WolfsslModule::gen_keys`. The `default:` label of the source's `switch`
sits on the ECDSA branch, which therefore also takes `RSA`. -/
def WolfsslModule.gen_keys (lib : Wolfssl) (self : WolfsslModule) : Outcome :=
  let curve_id := self.get_ecc_curve_id
  let key_size := self.get_key_size lib curve_id
  let finished : List NativeEvent :=
    [.print_elapsed_time "gen_keys", .print_used_memory "gen_keys", .log_success "gen_keys"]
  match self.commons.get_chosen_algorithm with
  | .EDDSA_25519 =>
    let events : List NativeEvent :=
      [.wc_ed25519_make_key self.rng key_size self.wolf_ed25519_key]
    let ret := lib.wc_ed25519_make_key
    if ret ≠ 0 then
      { ret := ret, self := self, events := events ++ [.log_error "wc_ed25519_make_key"] }
    else { ret := 0, self := self, events := events ++ finished }
  | .EDDSA_448 =>
    let events : List NativeEvent :=
      [.wc_ed448_make_key self.rng key_size self.wolf_ed448_key]
    let ret := lib.wc_ed448_make_key
    if ret ≠ 0 then
      { ret := ret, self := self, events := events ++ [.log_error "wc_ed448_make_key"] }
    else { ret := 0, self := self, events := events ++ finished }
  | .ECDSA_BP256R1 | .ECDSA_BP512R1 | .ECDSA_SECP256R1 | .ECDSA_SECP521R1 | .RSA =>
    let events : List NativeEvent :=
      [.wc_ecc_make_key_ex self.rng key_size self.wolf_ecc_key curve_id]
    let ret := lib.wc_ecc_make_key_ex
    if ret ≠ 0 then
      { ret := ret, self := self, events := events ++ [.log_error "wc_ecc_make_key_ex"] }
    else { ret := 0, self := self, events := events ++ finished }

/-- Embeds `WolfsslModule::gen_rsa_keys`; `rsa_key_size` is an `unsigned int`. -/
def WolfsslModule.gen_rsa_keys (lib : Wolfssl) (self : WolfsslModule) (rsa_key_size : Nat)
    (rsa_exponent : Int) : Outcome :=
  let self : WolfsslModule := { self with rsa_key_size := rsa_key_size }
  let events : List NativeEvent :=
    [.wc_MakeRsaKey self.wolf_rsa_key rsa_key_size rsa_exponent self.rng]
  let ret := lib.wc_MakeRsaKey
  if ret ≠ 0 then
    { ret := ret, self := self, events := events ++ [.log_error "wc_MakeRsaKey"] }
  else
    { ret := 0, self := self,
      events := events ++
        [.print_elapsed_time "gen_keys", .print_used_memory "gen_keys", .log_success "gen_keys"] }

/-- Embeds `WolfsslModule::close` (a `void` function: only its events). It assigns
no member, so the pointers keep their values. -/
def WolfsslModule.close (self : WolfsslModule) : List NativeEvent :=
  [.wolfCrypt_Cleanup, .wc_FreeRng self.rng] ++
  (if self.commons.get_chosen_algorithm = Algorithms.RSA then
      [NativeEvent.wc_FreeRsaKey self.wolf_rsa_key]
    else if self.commons.get_chosen_algorithm = Algorithms.EDDSA_25519 then
      [NativeEvent.wc_ed25519_free self.wolf_ed25519_key]
    else if self.commons.get_chosen_algorithm = Algorithms.EDDSA_448 then
      [NativeEvent.wc_ed448_free self.wolf_ed448_key]
    else [NativeEvent.wc_ecc_free self.wolf_ecc_key]) ++
  [.ESP_LOGI "> wolfssl closed."]

/-! ## The wolfSSL adapter: size tables -/

/-- Embeds `WolfsslModule::get_signature_size`. -/
def WolfsslModule.get_signature_size (lib : Wolfssl) (self : WolfsslModule) : Int :=
  if self.commons.get_chosen_algorithm = Algorithms.EDDSA_25519 then ED25519_SIG_SIZE
  else if self.commons.get_chosen_algorithm = Algorithms.EDDSA_448 then ED448_SIG_SIZE
  else if self.commons.get_chosen_algorithm = Algorithms.RSA then ((self.rsa_key_size / 8 : Nat) : Int)
  else lib.ECC_MAX_SIG_SIZE

/-- Embeds `WolfsslModule::get_public_key_pem_size`. -/
def WolfsslModule.get_public_key_pem_size (self : WolfsslModule) : Nat :=
  if self.commons.get_chosen_algorithm = Algorithms.EDDSA_25519 then 97
  else if self.commons.get_chosen_algorithm = Algorithms.EDDSA_448 then 130
  else if self.commons.get_chosen_algorithm = Algorithms.ECDSA_SECP256R1
      ∨ self.commons.get_chosen_algorithm = Algorithms.ECDSA_BP256R1 then 142
  else if self.commons.get_chosen_algorithm = Algorithms.ECDSA_SECP521R1
      ∨ self.commons.get_chosen_algorithm = Algorithms.ECDSA_BP512R1 then 235
  else if self.rsa_key_size = 2048 then 459
  else 808

/-- Embeds `WolfsslModule::get_public_key_der_size`. -/
def WolfsslModule.get_public_key_der_size (self : WolfsslModule) : Nat :=
  if self.commons.get_chosen_algorithm = Algorithms.EDDSA_25519 then 32
  else if self.commons.get_chosen_algorithm = Algorithms.EDDSA_448 then 57
  else if self.commons.get_chosen_algorithm = Algorithms.ECDSA_SECP256R1
      ∨ self.commons.get_chosen_algorithm = Algorithms.ECDSA_BP256R1 then 65
  else if self.commons.get_chosen_algorithm = Algorithms.ECDSA_SECP521R1
      ∨ self.commons.get_chosen_algorithm = Algorithms.ECDSA_BP512R1 then 133
  else if self.rsa_key_size = 2048 then 294
  else 550

/-! ## The wolfSSL adapter: hashing, signing, verifying, exporting -/

/-- Embeds `WolfsslModule::hash_message`: the status it returns and the digest it
leaves in the buffer. The `default:` branch cannot be reached with one of the four
enumerators. -/
def WolfsslModule.hash_message (lib : Wolfssl) (self : WolfsslModule) (message : List Nat)
    (message_len : Nat) : HashOutcome :=
  match self.commons.get_chosen_hash with
  | .MY_SHA_256 => lib.wc_Sha256Hash message message_len
  | .MY_SHA_512 => lib.wc_Sha512Hash message message_len
  | .MY_SHA3_256 => lib.wc_Sha3_256Hash message message_len
  | .MY_SHAKE_256 => lib.wc_Shake256Hash message message_len self.commons.get_hash_length

/-- The C library's `memcmp` on the first `n` bytes of two buffers: zero when they
agree, otherwise the difference of the first pair of bytes that differ. A byte the
model does not hold reads as zero. -/
def memcmp (a b : List Nat) : Nat → Int
  | 0 => 0
  | n + 1 =>
    if a.headD 0 = b.headD 0 then memcmp a.tail b.tail n
    else (a.headD 0 : Int) - (b.headD 0 : Int)

/-- The result of `WolfsslModule::sign`: the value returned, the bytes stored in the
signature buffer (`none` when nothing was stored), the value of
`*signature_length` on return, and the events. -/
structure SignResult where
  ret : Int
  signature : Option (List Nat)
  signature_length : Nat
  events : List NativeEvent
  deriving DecidableEq, Repr

/-- Embeds `WolfsslModule::sign`; `signature_length` is the value `*signature_length`
holds on entry. -/
def WolfsslModule.sign (lib : Wolfssl) (self : WolfsslModule) (message : List Nat)
    (message_length : Nat) (signature_length : Nat) : SignResult :=
  let hash_length := self.commons.get_hash_length
  let hashed := self.hash_message lib message message_length
  let hash := hashed.digest
  let events : List NativeEvent := [.malloc_bytes "hash" hash_length]
  let finished : List NativeEvent :=
    [.print_elapsed_time "sign", .print_used_memory "sign", .free_bytes "hash",
     .log_success "sign"]
  let ret := hashed.status
  if ret ≠ 0 then
    { ret := ret, signature := none, signature_length := signature_length,
      events := events ++ [.log_error "hash_message"] }
  else
    match self.commons.get_chosen_algorithm with
    | .EDDSA_25519 =>
      let signed := lib.wc_ed25519ph_sign_hash hash hash_length signature_length
      let events := events ++ [.wc_ed25519ph_sign_hash self.wolf_ed25519_key]
      let ret := signed.status
      if ret ≠ 0 then
        { ret := ret, signature := some signed.signature, signature_length := signed.outLen,
          events := events ++ [.log_error "wc_ed25519ph_sign_hash"] }
      else
        { ret := 0, signature := some signed.signature, signature_length := signed.outLen,
          events := events ++ finished }
    | .RSA =>
      let signed := lib.wc_RsaSSL_Sign hash hash_length signature_length
      let events := events ++ [.wc_RsaSSL_Sign self.wolf_rsa_key self.rng]
      let ret := signed.status
      if toSizeT ret ≠ signature_length then
        { ret := ret, signature := some signed.signature, signature_length := signature_length,
          events := events ++ [.log_error "wc_RsaSSL_Sign"] }
      else
        { ret := 0, signature := some signed.signature, signature_length := signature_length,
          events := events ++ finished }
    | .ECDSA_BP256R1 | .ECDSA_BP512R1 | .ECDSA_SECP256R1 | .ECDSA_SECP521R1 =>
      let signed := lib.wc_ecc_sign_hash hash hash_length signature_length
      let events := events ++ [.wc_ecc_sign_hash self.rng self.wolf_ecc_key]
      let ret := signed.status
      if ret ≠ 0 then
        { ret := ret, signature := some signed.signature, signature_length := signed.outLen,
          events := events ++ [.log_error "wc_ecc_sign_hash"] }
      else
        { ret := 0, signature := some signed.signature, signature_length := signed.outLen,
          events := events ++ finished }
    | .EDDSA_448 =>
      let signed := lib.wc_ed448ph_sign_hash hash hash_length signature_length
      let events := events ++ [.wc_ed448ph_sign_hash self.wolf_ed448_key]
      let ret := signed.status
      if ret ≠ 0 then
        { ret := ret, signature := some signed.signature, signature_length := signed.outLen,
          events := events ++ [.log_error "wc_ed448ph_sign_hash"] }
      else
        { ret := 0, signature := some signed.signature, signature_length := signed.outLen,
          events := events ++ finished }

/-- The result of a member function that returns `int` and changes no member. -/
structure CallResult where
  ret : Int
  events : List NativeEvent
  deriving DecidableEq, Repr

/-- Embeds `WolfsslModule::verify`. -/
def WolfsslModule.verify (lib : Wolfssl) (self : WolfsslModule) (message : List Nat)
    (message_length : Nat) (signature : List Nat) (signature_length : Nat) : CallResult :=
  let hash_length := self.commons.get_hash_length
  let hashed := self.hash_message lib message message_length
  let hash := hashed.digest
  let events : List NativeEvent := [.malloc_bytes "hash" hash_length]
  let finished : List NativeEvent :=
    [.print_elapsed_time "verify", .print_used_memory "verify", .free_bytes "hash",
     .free_bytes "decrypted_signature", .log_success "verify"]
  let invalid : List NativeEvent := [.ESP_LOGE "> Signature not valid."]
  let ret := hashed.status
  if ret ≠ 0 then
    { ret := ret, events := events ++ [.log_error "hash_message"] }
  else
    let events := events ++ [.malloc_bytes "decrypted_signature" hash_length]
    match self.commons.get_chosen_algorithm with
    | .EDDSA_25519 =>
      let checked := lib.wc_ed25519ph_verify_hash signature signature_length hash hash_length
      let events := events ++ [.wc_ed25519ph_verify_hash self.wolf_ed25519_key]
      let ret := checked.status
      if ret ≠ 0 then
        { ret := ret, events := events ++ [.log_error "wc_ed25519ph_verify_hash"] }
      else
        let verify_status := checked.res
        { ret := 0,
          events := events ++ (if verify_status ≠ 1 then invalid else []) ++ finished }
    | .RSA =>
      let checked := lib.wc_RsaSSL_Verify signature signature_length hash_length
      let events := events ++ [.wc_RsaSSL_Verify self.wolf_rsa_key]
      let ret := checked.status
      if toSizeT ret ≠ hash_length then
        { ret := ret, events := events ++ [.log_error "wc_RsaSSL_Verify"] }
      else
        let verify_status := memcmp hash checked.out hash_length
        { ret := 0,
          events := events ++ (if verify_status ≠ 0 then invalid else []) ++ finished }
    | .ECDSA_BP256R1 | .ECDSA_BP512R1 | .ECDSA_SECP256R1 | .ECDSA_SECP521R1 =>
      let checked := lib.wc_ecc_verify_hash signature signature_length hash hash_length
      let events := events ++ [.wc_ecc_verify_hash self.wolf_ecc_key]
      let ret := checked.status
      if ret ≠ 0 then
        { ret := ret, events := events ++ [.log_error "wc_ecc_verify_hash"] }
      else
        let verify_status := checked.res
        { ret := 0,
          events := events ++ (if verify_status ≠ 1 then invalid else []) ++ finished }
    | .EDDSA_448 =>
      let checked := lib.wc_ed448ph_verify_hash signature signature_length hash hash_length
      let events := events ++ [.wc_ed448ph_verify_hash self.wolf_ed448_key]
      let ret := checked.status
      if ret ≠ 0 then
        { ret := ret, events := events ++ [.log_error "wc_ed448ph_verify_hash"] }
      else
        let verify_status := checked.res
        { ret := 0,
          events := events ++ (if verify_status ≠ 1 then invalid else []) ++ finished }

/-- The tail of `WolfsslModule::get_public_key_pem`, from the `wc_DerToPem` call on
(lines 479 to 495 of the source), for the DER length and certificate type the
`switch` before it arrived at. -/
def WolfsslModule.der_to_pem (lib : Wolfssl) (self : WolfsslModule)
    (events : List NativeEvent) (der_pub_key_size : Nat) (cert_type : CertType) : CallResult :=
  let events := events ++
    [.wc_DerToPem der_pub_key_size self.get_public_key_pem_size cert_type]
  let ret := lib.wc_DerToPem der_pub_key_size self.get_public_key_pem_size cert_type
  if ret < 0 then
    { ret := ret, events := events ++ [.log_error "wc_DerToPem"] }
  else
    { ret := 0,
      events := events ++
        [.write_terminator self.get_public_key_pem_size,
         .print_elapsed_time "get_pub_key", .print_used_memory "get_pub_key"] }

/-- Embeds `WolfsslModule::get_public_key_pem`. The `default:` label of the source's
`switch` sits on the ECDSA branch, which has no other algorithm left to take. -/
def WolfsslModule.get_public_key_pem (lib : Wolfssl) (self : WolfsslModule) : CallResult :=
  let der_pub_key_size := self.get_public_key_der_size
  let events : List NativeEvent := [.malloc_bytes "der_pub_key" der_pub_key_size]
  match self.commons.get_chosen_algorithm with
  | .EDDSA_25519 =>
    let exported := lib.wc_ed25519_export_public der_pub_key_size
    let events := events ++ [.wc_ed25519_export_public self.wolf_ed25519_key]
    let ret := exported.status
    if ret ≠ 0 then
      { ret := ret, events := events ++ [.log_error "wc_ed25519_export_public"] }
    else self.der_to_pem lib events exported.outLen .PUBLICKEY_TYPE
  | .RSA =>
    let ret := lib.wc_RsaKeyToPublicDer der_pub_key_size
    let events := events ++ [.wc_RsaKeyToPublicDer self.wolf_rsa_key der_pub_key_size]
    if ret < 0 then
      { ret := ret, events := events ++ [.log_error "wc_RsaKeyToPublicDer"] }
    else self.der_to_pem lib events (toSizeT ret) .RSA_PUBLICKEY_TYPE
  | .ECDSA_BP256R1 | .ECDSA_BP512R1 | .ECDSA_SECP256R1 | .ECDSA_SECP521R1 =>
    let ret := lib.wc_EccPublicKeyToDer der_pub_key_size
    let events := events ++ [.wc_EccPublicKeyToDer self.wolf_ecc_key der_pub_key_size]
    if ret < 0 then
      { ret := ret, events := events ++ [.log_error "wc_EccPublicKeyToDer"] }
    else self.der_to_pem lib events (toSizeT ret) .ECC_PUBLICKEY_TYPE
  | .EDDSA_448 =>
    let exported := lib.wc_ed448_export_public der_pub_key_size
    let events := events ++ [.wc_ed448_export_public self.wolf_ed448_key]
    let ret := exported.status
    if ret ≠ 0 then
      { ret := ret, events := events ++ [.log_error "wc_ed448_export_public"] }
    else self.der_to_pem lib events exported.outLen .PUBLICKEY_TYPE

/-! ## The encodings the size tables are measured against -/

/-- Modelled from the spec: the first line wolfSSL's `wc_DerToPem` writes for a
certificate type, a string of the library; the spec gives
`-----BEGIN PUBLIC KEY-----` for the EdDSA and ECDSA types and
`-----BEGIN RSA PUBLIC KEY-----` for RSA, each ended by a newline. -/
def CertType.header : CertType → String
  | .PUBLICKEY_TYPE => "-----BEGIN PUBLIC KEY-----\n"
  | .ECC_PUBLICKEY_TYPE => "-----BEGIN PUBLIC KEY-----\n"
  | .RSA_PUBLICKEY_TYPE => "-----BEGIN RSA PUBLIC KEY-----\n"

/-- Modelled from the spec: the last line wolfSSL's `wc_DerToPem` writes for a
certificate type, a string of the library; the spec gives
`-----END PUBLIC KEY-----` for the EdDSA and ECDSA types and
`-----END RSA PUBLIC KEY-----` for RSA, each ended by a newline. -/
def CertType.footer : CertType → String
  | .PUBLICKEY_TYPE => "-----END PUBLIC KEY-----\n"
  | .ECC_PUBLICKEY_TYPE => "-----END PUBLIC KEY-----\n"
  | .RSA_PUBLICKEY_TYPE => "-----END RSA PUBLIC KEY-----\n"

/-- The certificate type `get_public_key_pem` assigns in the branch of its `switch`
that an algorithm takes. -/
def pem_cert_type : Algorithms → CertType
  | .EDDSA_25519 => .PUBLICKEY_TYPE
  | .EDDSA_448 => .PUBLICKEY_TYPE
  | .RSA => .RSA_PUBLICKEY_TYPE
  | .ECDSA_BP256R1 => .ECC_PUBLICKEY_TYPE
  | .ECDSA_BP512R1 => .ECC_PUBLICKEY_TYPE
  | .ECDSA_SECP256R1 => .ECC_PUBLICKEY_TYPE
  | .ECDSA_SECP521R1 => .ECC_PUBLICKEY_TYPE

/-- Modelled from the spec: the number of base64 characters that encode `d` bytes,
four for every started group of three. -/
def base64_length (d : Nat) : Nat :=
  4 * ((d + 2) / 3)

/-- Modelled from the spec: the length of the PEM text that wraps `d` bytes: header,
footer, the base64 characters, and one newline for every started line of 64
characters. -/
def pem_text_length (cert_type : CertType) (d : Nat) : Nat :=
  cert_type.header.length + cert_type.footer.length + base64_length d
    + (base64_length d + 63) / 64

/-- Modelled from the spec: the field size in bytes of the curve of an ECDSA
algorithm (32 for the two 256-bit curves, 64 for brainpoolP512r1, 66 for
secp521r1), a table of the library; `none` for the other algorithms. -/
def curve_field_size : Algorithms → Option Nat
  | .ECDSA_SECP256R1 => some 32
  | .ECDSA_BP256R1 => some 32
  | .ECDSA_BP512R1 => some 64
  | .ECDSA_SECP521R1 => some 66
  | _ => none

/-- Modelled from the spec: the byte length of the public-key encoding the provider
produces for a non-RSA algorithm: the raw public key for the EdDSA variants (32 and
57 bytes), the uncompressed point, one byte and two field elements, for an ECDSA
curve; `none` for RSA. -/
def provider_public_key_length : Algorithms → Option Nat
  | .EDDSA_25519 => some 32
  | .EDDSA_448 => some 57
  | .RSA => none
  | a => (curve_field_size a).map (fun s => 1 + 2 * s)

/-- The native key structure `init` allocates for an algorithm, in the spec's
words: the ed25519 key for EDDSA_25519, the RSA key for RSA, the ed448 key for
EDDSA_448, the ECC key for each of the four ECDSA curves. -/
def key_structure : Algorithms → NativeStruct
  | .EDDSA_25519 => .ed25519_key
  | .RSA => .RsaKey
  | .EDDSA_448 => .ed448_key
  | .ECDSA_BP256R1 => .ecc_key
  | .ECDSA_BP512R1 => .ecc_key
  | .ECDSA_SECP256R1 => .ecc_key
  | .ECDSA_SECP521R1 => .ecc_key

/-! ## The claims' vocabulary for `sign` and `verify` -/

/-- The return value of the provider's verify primitive for the module's algorithm:
the pre-hashed EdDSA verify for the two EdDSA variants, `wc_RsaSSL_Verify` for RSA,
`wc_ecc_verify_hash` for the four ECDSA curves. -/
def WolfsslModule.verify_primitive_status (lib : Wolfssl) (self : WolfsslModule)
    (message : List Nat) (message_length : Nat) (signature : List Nat) (signature_length : Nat) :
    Int :=
  let hash := (self.hash_message lib message message_length).digest
  let n := self.commons.get_hash_length
  match self.commons.chosen_algorithm with
  | .EDDSA_25519 => (lib.wc_ed25519ph_verify_hash signature signature_length hash n).status
  | .EDDSA_448 => (lib.wc_ed448ph_verify_hash signature signature_length hash n).status
  | .RSA => (lib.wc_RsaSSL_Verify signature signature_length n).status
  | _ => (lib.wc_ecc_verify_hash signature signature_length hash n).status

/-- The verify primitive "reports call success" in the spec's words: status 0 for
ECDSA and EdDSA, returned length equal to the hash length for RSA. -/
def WolfsslModule.verify_call_succeeded (lib : Wolfssl) (self : WolfsslModule)
    (message : List Nat) (message_length : Nat) (signature : List Nat) (signature_length : Nat) :
    Prop :=
  if self.commons.chosen_algorithm = Algorithms.RSA then
    self.verify_primitive_status lib message message_length signature signature_length
      = (self.commons.get_hash_length : Int)
  else
    self.verify_primitive_status lib message message_length signature signature_length = 0

/-- The validity outcome of a verification in the spec's words: `verify_status`
equal to 1 for ECDSA and EdDSA, decrypted digest equal to the recomputed hash for
RSA. -/
def WolfsslModule.signature_valid (lib : Wolfssl) (self : WolfsslModule)
    (message : List Nat) (message_length : Nat) (signature : List Nat) (signature_length : Nat) :
    Prop :=
  let hash := (self.hash_message lib message message_length).digest
  let n := self.commons.get_hash_length
  match self.commons.chosen_algorithm with
  | .EDDSA_25519 => (lib.wc_ed25519ph_verify_hash signature signature_length hash n).res = 1
  | .EDDSA_448 => (lib.wc_ed448ph_verify_hash signature signature_length hash n).res = 1
  | .RSA => memcmp hash (lib.wc_RsaSSL_Verify signature signature_length n).out n = 0
  | _ => (lib.wc_ecc_verify_hash signature signature_length hash n).res = 1

/-- The return value of the provider's sign primitive for the module's algorithm:
the pre-hashed EdDSA sign for the two EdDSA variants, `wc_RsaSSL_Sign` for RSA,
`wc_ecc_sign_hash` for the four ECDSA curves. -/
def WolfsslModule.sign_primitive_status (lib : Wolfssl) (self : WolfsslModule)
    (message : List Nat) (message_length : Nat) (signature_length : Nat) : Int :=
  let hash := (self.hash_message lib message message_length).digest
  let n := self.commons.get_hash_length
  match self.commons.chosen_algorithm with
  | .EDDSA_25519 => (lib.wc_ed25519ph_sign_hash hash n signature_length).status
  | .EDDSA_448 => (lib.wc_ed448ph_sign_hash hash n signature_length).status
  | .RSA => (lib.wc_RsaSSL_Sign hash n signature_length).status
  | _ => (lib.wc_ecc_sign_hash hash n signature_length).status

/-- Call success of the verify primitive can be computed. -/
instance WolfsslModule.verify_call_succeeded_decidable (lib : Wolfssl) (self : WolfsslModule)
    (message : List Nat) (message_length : Nat) (signature : List Nat) (signature_length : Nat) :
    Decidable
      (self.verify_call_succeeded lib message message_length signature signature_length) := by
  unfold WolfsslModule.verify_call_succeeded
  infer_instance

/-- The validity outcome can be computed. -/
instance WolfsslModule.signature_valid_decidable (lib : Wolfssl) (self : WolfsslModule)
    (message : List Nat) (message_length : Nat) (signature : List Nat) (signature_length : Nat) :
    Decidable (self.signature_valid lib message message_length signature signature_length) := by
  unfold WolfsslModule.signature_valid
  dsimp only
  split <;> infer_instance

/-- A module fresh from its constructor whose shared configuration records
`algorithm` and SHA-256: it holds no native structure yet. -/
def WolfsslModule.configured (algorithm : Algorithms) : WolfsslModule :=
  WolfsslModule.new
    { chosen_algorithm := algorithm, chosen_hash := .MY_SHA_256, shake256_hash_length := 0 } 0

/-! ## The facade over its lifetime -/

/-- Embeds `CryptoAPI::~CryptoAPI`: it deletes the three adapter objects,
whatever `init` has deleted before. -/
def CryptoAPI.destroy : List Event :=
  [Event.delete .MBEDTLS_LIB, Event.delete .WOLFSSL_LIB, Event.delete .MICROECC_LIB]

/-- One call of a public member function of the facade, with its arguments. -/
inductive FacadeCall
  | init (arguments : InitArguments)
  | get_signature_size
  | gen_rsa_keys (rsa_key_size : Int) (rsa_exponent : Int)
  | gen_keys
  | sign (message message_length signature signature_length : Nat)
  | sign_without_length (message message_length signature : Nat)
  | verify (message message_length signature signature_length : Nat)
  | verify_without_length (message message_length signature : Nat)
  | close
  | get_chosen_algorithm
  | get_chosen_library
  deriving DecidableEq, Repr

/-- Whether a facade call is a call of `init`. -/
def FacadeCall.is_init : FacadeCall → Bool
  | .init _ => true
  | _ => false

/-- One facade call: the facade afterwards and the events the call leaves.
`get_chosen_algorithm` and `get_chosen_library` read a member and leave none. -/
def CryptoAPI.step (adapters : Adapters) (history : List Event) (self : CryptoAPI) :
    FacadeCall → CryptoAPI × List Event
  | .init a =>
    (CryptoAPI.init adapters history self a.library a.algorithm a.hash a.length_of_shake256).2
  | .get_signature_size => (self, (CryptoAPI.get_signature_size adapters history self).2)
  | .gen_rsa_keys rsa_key_size rsa_exponent =>
    (self, (CryptoAPI.gen_rsa_keys adapters history self rsa_key_size rsa_exponent).2)
  | .gen_keys => (self, (CryptoAPI.gen_keys adapters history self).2)
  | .sign message message_length signature signature_length =>
    (self, (CryptoAPI.sign adapters history self message message_length signature
      signature_length).2)
  | .sign_without_length message message_length signature =>
    (self, (CryptoAPI.sign_without_length adapters history self message message_length
      signature).2)
  | .verify message message_length signature signature_length =>
    (self, (CryptoAPI.verify adapters history self message message_length signature
      signature_length).2)
  | .verify_without_length message message_length signature =>
    (self, (CryptoAPI.verify_without_length adapters history self message message_length
      signature).2)
  | .close => (self, CryptoAPI.close adapters history self)
  | .get_chosen_algorithm => (self, [])
  | .get_chosen_library => (self, [])

/-- A sequence of facade calls, each seeing the events of the earlier ones: the
facade and the whole event list afterwards. -/
def CryptoAPI.run (adapters : Adapters) :
    List FacadeCall → CryptoAPI × List Event → CryptoAPI × List Event
  | [], state => state
  | call :: rest, (self, history) =>
    let r := CryptoAPI.step adapters history self call
    CryptoAPI.run adapters rest (r.1, history ++ r.2)

/-- Whether an event list invokes an operation of an adapter after the `delete` of
that adapter; `released` holds the adapters deleted before the list starts. -/
def invoked_after_delete (released : List Libraries) : List Event → Bool
  | [] => false
  | .invoke library _ :: rest =>
    released.contains library || invoked_after_delete released rest
  | .delete library :: rest => invoked_after_delete (library :: released) rest
  | .ESP_LOGI _ :: rest => invoked_after_delete released rest

/-- Whether an event list deletes an adapter that was deleted already; `released`
holds the adapters deleted before the list starts. -/
def deleted_twice (released : List Libraries) : List Event → Bool
  | [] => false
  | .delete library :: rest =>
    released.contains library || deleted_twice (library :: released) rest
  | .invoke _ _ :: rest => deleted_twice released rest
  | .ESP_LOGI _ :: rest => deleted_twice released rest


/-- Whether an event is a call of one of wolfSSL's key-generation primitives. -/
def NativeEvent.is_key_generation : NativeEvent → Bool
  | .wc_ed25519_make_key _ _ _ => true
  | .wc_ecc_make_key_ex _ _ _ _ => true
  | .wc_ed448_make_key _ _ _ => true
  | .wc_MakeRsaKey _ _ _ _ => true
  | _ => false


/-! ## Concrete surroundings, for evaluating the code at a given input -/

/-- Adapters whose every member function returns the same value. -/
def Adapters.constant (value : Int) : Adapters :=
  fun _ _ _ => value

/-- A wolfSSL library in which every call succeeds: statuses are zero, the RSA
primitives return the length they were asked for, hashes return a digest of zero
bytes of the requested width, and signatures verify. -/
def Wolfssl.succeeding : Wolfssl where
  malloc := fun kind =>
    match kind with
    | .WC_RNG => 4096
    | .ed25519_key => 8192
    | .RsaKey => 12288
    | .ecc_key => 16384
    | .ed448_key => 20480
  ECC_MAX_SIG_SIZE := 141
  wc_InitRng := 0
  wc_ed25519_init := 0
  wc_InitRsaKey := 0
  wc_ecc_init := 0
  wc_ed448_init := 0
  wc_ecc_get_curve_size_from_id := fun curve_id =>
    match curve_id with
    | .ECC_SECP256R1 => 32
    | .ECC_SECP521R1 => 66
    | .ECC_BRAINPOOLP256R1 => 32
    | .ECC_BRAINPOOLP512R1 => 64
  wc_ed25519_make_key := 0
  wc_ecc_make_key_ex := 0
  wc_ed448_make_key := 0
  wc_MakeRsaKey := 0
  wc_Sha256Hash := fun _ _ => { status := 0, digest := List.replicate 32 0 }
  wc_Sha512Hash := fun _ _ => { status := 0, digest := List.replicate 64 0 }
  wc_Sha3_256Hash := fun _ _ => { status := 0, digest := List.replicate 32 0 }
  wc_Shake256Hash := fun _ _ n => { status := 0, digest := List.replicate n 0 }
  wc_ed25519ph_sign_hash := fun _ _ _ => { status := 0, signature := [], outLen := 64 }
  wc_RsaSSL_Sign := fun _ _ capacity => { status := capacity, signature := [], outLen := 0 }
  wc_ecc_sign_hash := fun _ _ _ => { status := 0, signature := [], outLen := 71 }
  wc_ed448ph_sign_hash := fun _ _ _ => { status := 0, signature := [], outLen := 114 }
  wc_ed25519ph_verify_hash := fun _ _ _ _ => { status := 0, res := 1 }
  wc_RsaSSL_Verify := fun _ _ n => { status := n, out := List.replicate n 0 }
  wc_ecc_verify_hash := fun _ _ _ _ => { status := 0, res := 1 }
  wc_ed448ph_verify_hash := fun _ _ _ _ => { status := 0, res := 1 }
  wc_ed25519_export_public := fun _ => { status := 0, outLen := 32 }
  wc_RsaKeyToPublicDer := fun capacity => capacity
  wc_EccPublicKeyToDer := fun capacity => capacity
  wc_ed448_export_public := fun _ => { status := 0, outLen := 57 }
  wc_DerToPem := fun _ capacity _ => capacity

/-- A wolfSSL library whose verify primitives succeed as calls and report the
signature as not valid: the flag is 0, the RSA primitive decrypts to bytes that
differ from the digest. -/
def Wolfssl.rejecting : Wolfssl :=
  { Wolfssl.succeeding with
    wc_ed25519ph_verify_hash := fun _ _ _ _ => { status := 0, res := 0 }
    wc_RsaSSL_Verify := fun _ _ n => { status := n, out := List.replicate n 1 }
    wc_ecc_verify_hash := fun _ _ _ _ => { status := 0, res := 0 }
    wc_ed448ph_verify_hash := fun _ _ _ _ => { status := 0, res := 0 } }


/-- A wolfSSL library in which every call succeeds except that `wc_RsaSSL_Sign`
returns `status`. -/
def Wolfssl.rsa_sign_returning (status : Int) : Wolfssl :=
  { Wolfssl.succeeding with
    wc_RsaSSL_Sign := fun _ _ _ => { status := status, signature := [], outLen := 0 } }


/-- A wolfSSL library in which every call succeeds, whose macro `ECC_MAX_SIG_SIZE`
is `max_size` and whose ECDSA sign primitive stores the length `written`. -/
def Wolfssl.ecdsa_signing (max_size : Int) (written : Nat) : Wolfssl :=
  { Wolfssl.succeeding with
    ECC_MAX_SIG_SIZE := max_size
    wc_ecc_sign_hash := fun _ _ _ => { status := 0, signature := [], outLen := written } }

/-- A wolfSSL library in which `wc_InitRng` fails with `status` and every other
call succeeds. -/
def Wolfssl.rng_failing (status : Int) : Wolfssl :=
  { Wolfssl.succeeding with wc_InitRng := status }

/-- The module after assignments that reach neither the five pointers nor the
recorded algorithm: the RSA bit length (`gen_rsa_keys`), the hash and the SHAKE
length of the shared configuration. -/
def WolfsslModule.with_other_members (self : WolfsslModule) (rsa_key_size : Nat)
    (hash : Hashes) (length : Nat) : WolfsslModule :=
  { self with
    rsa_key_size := rsa_key_size
    commons := { self.commons with chosen_hash := hash, shake256_hash_length := length } }

/-- The return value of the initialiser `init` calls on the key structure of an
algorithm. -/
def Wolfssl.key_init_status (lib : Wolfssl) : Algorithms → Int
  | .EDDSA_25519 => lib.wc_ed25519_init
  | .RSA => lib.wc_InitRsaKey
  | .EDDSA_448 => lib.wc_ed448_init
  | _ => lib.wc_ecc_init


/-! ## Theorems: the facade -/

/-- After `init`, the facade's provider is the one `init` was given. -/
theorem CryptoAPI.init_chosen_library (adapters : Adapters) (history : List Event)
    (self : CryptoAPI) (a : InitArguments) :
    (CryptoAPI.init adapters history self a.library a.algorithm a.hash
      a.length_of_shake256).2.1.chosen_library = a.library := by
  unfold CryptoAPI.init
  dsimp only
  split_ifs <;> rfl

/-- After a sequence of `init` calls that is not empty, the facade's provider is
the one the last call was given. -/
theorem CryptoAPI.init_sequence_chosen_library (adapters : Adapters)
    (calls : List InitArguments) (last : InitArguments) (start : CryptoAPI × List Event) :
    (CryptoAPI.init_sequence adapters (calls ++ [last]) start).1.chosen_library
      = last.library := by
  induction calls generalizing start with
  | nil =>
    obtain ⟨self, history⟩ := start
    simp only [List.nil_append, CryptoAPI.init_sequence]
    exact CryptoAPI.init_chosen_library adapters history self last
  | cons a rest ih =>
    obtain ⟨self, history⟩ := start
    simp only [List.cons_append, CryptoAPI.init_sequence]
    exact ih _

/-- C1: whatever the message and signature buffers, the overloads of `sign` and
`verify` without a length return -1000 and invoke no adapter when the selected
provider is not MICROECC_LIB; when it is MICROECC_LIB they invoke the micro-ecc
adapter's `sign` / `verify` once, with the three arguments, and return its result. -/
theorem CryptoAPI.without_length_contract (adapters : Adapters) (history : List Event)
    (self : CryptoAPI) (message message_length signature : Nat) :
    (self.chosen_library ≠ Libraries.MICROECC_LIB →
      CryptoAPI.sign_without_length adapters history self message message_length signature
          = (-1000, [])
        ∧ CryptoAPI.verify_without_length adapters history self message message_length signature
          = (-1000, []))
    ∧ (self.chosen_library = Libraries.MICROECC_LIB →
      CryptoAPI.sign_without_length adapters history self message message_length signature
          = (adapters history .MICROECC_LIB (.sign_fixed message message_length signature),
             [Event.invoke .MICROECC_LIB (.sign_fixed message message_length signature)])
        ∧ CryptoAPI.verify_without_length adapters history self message message_length signature
          = (adapters history .MICROECC_LIB (.verify_fixed message message_length signature),
             [Event.invoke .MICROECC_LIB (.verify_fixed message message_length signature)])) := by
  constructor
  · intro h
    simp [CryptoAPI.sign_without_length, CryptoAPI.verify_without_length, h]
  · intro h
    simp [CryptoAPI.sign_without_length, CryptoAPI.verify_without_length, CryptoAPI.sign,
      CryptoAPI.verify, CryptoAPI.invoke, h]

/-- C1 at concrete inputs: with wolfSSL selected both overloads return -1000 and
leave no event although every adapter would return 7; with micro-ecc selected they
return the adapter's 7. -/
theorem CryptoAPI.without_length_contract_witness :
    (CryptoAPI.sign_without_length (Adapters.constant 7) [] ⟨.WOLFSSL_LIB⟩ 16 5 32 = (-1000, [])
      ∧ CryptoAPI.verify_without_length (Adapters.constant 7) [] ⟨.WOLFSSL_LIB⟩ 16 5 32
        = (-1000, []))
    ∧ (CryptoAPI.sign_without_length (Adapters.constant 7) [] ⟨.MICROECC_LIB⟩ 16 5 32
        = (7, [Event.invoke .MICROECC_LIB (.sign_fixed 16 5 32)])
      ∧ CryptoAPI.verify_without_length (Adapters.constant 7) [] ⟨.MICROECC_LIB⟩ 16 5 32
        = (7, [Event.invoke .MICROECC_LIB (.verify_fixed 16 5 32)])) :=
  ⟨(CryptoAPI.without_length_contract (Adapters.constant 7) [] ⟨.WOLFSSL_LIB⟩ 16 5 32).1
      (by decide),
   (CryptoAPI.without_length_contract (Adapters.constant 7) [] ⟨.MICROECC_LIB⟩ 16 5 32).2 rfl⟩

/-- C2: after any sequence of `init` calls followed by `init(p, ...)` (the sequence
may be empty), each of `gen_keys`, the four-argument `sign`, the four-argument
`verify` and `close` leaves exactly one event, the invocation of the operation of
the same name on adapter `p` with the caller's arguments, and the three that
return `int` return what that invocation returned. -/
theorem CryptoAPI.dispatch_after_init (adapters : Adapters) (calls : List InitArguments)
    (last : InitArguments) (start : CryptoAPI × List Event)
    (message message_length signature signature_length : Nat) :
    (CryptoAPI.gen_keys adapters
        (CryptoAPI.init_sequence adapters (calls ++ [last]) start).2
        (CryptoAPI.init_sequence adapters (calls ++ [last]) start).1
      = (adapters (CryptoAPI.init_sequence adapters (calls ++ [last]) start).2
            last.library .gen_keys,
          [Event.invoke last.library .gen_keys]))
    ∧ (∃ call, call.operation = Operation.sign
        ∧ (call = .sign_with_length message message_length signature signature_length
            ∨ call = .sign_fixed message message_length signature)
        ∧ CryptoAPI.sign adapters
            (CryptoAPI.init_sequence adapters (calls ++ [last]) start).2
            (CryptoAPI.init_sequence adapters (calls ++ [last]) start).1
            message message_length signature signature_length
          = (adapters (CryptoAPI.init_sequence adapters (calls ++ [last]) start).2
                last.library call,
              [Event.invoke last.library call]))
    ∧ (∃ call, call.operation = Operation.verify
        ∧ (call = .verify_with_length message message_length signature signature_length
            ∨ call = .verify_fixed message message_length signature)
        ∧ CryptoAPI.verify adapters
            (CryptoAPI.init_sequence adapters (calls ++ [last]) start).2
            (CryptoAPI.init_sequence adapters (calls ++ [last]) start).1
            message message_length signature signature_length
          = (adapters (CryptoAPI.init_sequence adapters (calls ++ [last]) start).2
                last.library call,
              [Event.invoke last.library call]))
    ∧ CryptoAPI.close adapters
        (CryptoAPI.init_sequence adapters (calls ++ [last]) start).2
        (CryptoAPI.init_sequence adapters (calls ++ [last]) start).1
      = [Event.invoke last.library .close] := by
  have hl := CryptoAPI.init_sequence_chosen_library adapters calls last start
  generalize CryptoAPI.init_sequence adapters (calls ++ [last]) start = after at hl
  obtain ⟨facade, history⟩ := after
  simp only at hl ⊢
  cases hp : last.library <;> rw [hp] at hl
  · exact ⟨by simp [CryptoAPI.gen_keys, CryptoAPI.invoke, hl],
      ⟨.sign_with_length message message_length signature signature_length, rfl, Or.inl rfl,
        by simp [CryptoAPI.sign, CryptoAPI.invoke, hl]⟩,
      ⟨.verify_with_length message message_length signature signature_length, rfl, Or.inl rfl,
        by simp [CryptoAPI.verify, CryptoAPI.invoke, hl]⟩,
      by simp [CryptoAPI.close, CryptoAPI.invoke, hl]⟩
  · exact ⟨by simp [CryptoAPI.gen_keys, CryptoAPI.invoke, hl],
      ⟨.sign_with_length message message_length signature signature_length, rfl, Or.inl rfl,
        by simp [CryptoAPI.sign, CryptoAPI.invoke, hl]⟩,
      ⟨.verify_with_length message message_length signature signature_length, rfl, Or.inl rfl,
        by simp [CryptoAPI.verify, CryptoAPI.invoke, hl]⟩,
      by simp [CryptoAPI.close, CryptoAPI.invoke, hl]⟩
  · exact ⟨by simp [CryptoAPI.gen_keys, CryptoAPI.invoke, hl],
      ⟨.sign_fixed message message_length signature, rfl, Or.inr rfl,
        by simp [CryptoAPI.sign, CryptoAPI.invoke, hl]⟩,
      ⟨.verify_fixed message message_length signature, rfl, Or.inr rfl,
        by simp [CryptoAPI.verify, CryptoAPI.invoke, hl]⟩,
      by simp [CryptoAPI.close, CryptoAPI.invoke, hl]⟩

/-- C3: with MICROECC_LIB selected `gen_rsa_keys` reaches no adapter and returns
-1, whereas the overloads of `sign` and `verify` without a length return -1000 when
they reach no adapter: the facade has two values for an unsupported operation. -/
theorem CryptoAPI.gen_rsa_keys_unsupported_value (adapters : Adapters) (history : List Event)
    (rsa_key_size rsa_exponent : Int) (message message_length signature : Nat) :
    CryptoAPI.gen_rsa_keys adapters history ⟨.MICROECC_LIB⟩ rsa_key_size rsa_exponent = (-1, [])
    ∧ CryptoAPI.sign_without_length adapters history ⟨.WOLFSSL_LIB⟩ message message_length
        signature = (-1000, [])
    ∧ CryptoAPI.verify_without_length adapters history ⟨.WOLFSSL_LIB⟩ message message_length
        signature = (-1000, [])
    ∧ (CryptoAPI.gen_rsa_keys adapters history ⟨.MICROECC_LIB⟩ rsa_key_size rsa_exponent).1
      ≠ (CryptoAPI.sign_without_length adapters history ⟨.WOLFSSL_LIB⟩ message message_length
          signature).1 := by
  simp [CryptoAPI.gen_rsa_keys, CryptoAPI.sign_without_length, CryptoAPI.verify_without_length]

/-! ## Theorems: `verify` and `sign` of the wolfSSL adapter -/

/-- An `int` that equals a `size_t` value converts to that value. -/
theorem toSizeT_of_eq (status : Int) (n : Nat) (hn : n < 4294967296) (h : status = (n : Int)) :
    toSizeT status = n := by
  subst h
  unfold toSizeT
  have : ((n : Int) % 4294967296) = (n : Int) := Int.emod_eq_of_lt (by omega) (by omega)
  rw [this]
  simp

/-- One run of `verify`: when hashing succeeds and the verify primitive reports call
success, `verify` returns 0, whatever the validity outcome. -/
theorem WolfsslModule.verify_returns_zero (lib : Wolfssl) (self : WolfsslModule)
    (message : List Nat) (message_length : Nat) (signature : List Nat) (signature_length : Nat)
    (hsize : self.commons.get_hash_length < 4294967296)
    (hhash : (self.hash_message lib message message_length).status = 0)
    (hcall : self.verify_call_succeeded lib message message_length signature signature_length) :
    (self.verify lib message message_length signature signature_length).ret = 0 := by
  unfold WolfsslModule.verify_call_succeeded WolfsslModule.verify_primitive_status at hcall
  unfold WolfsslModule.verify
  simp only [CryptoApiCommons.get_chosen_algorithm]
  cases halg : self.commons.chosen_algorithm <;> simp only [halg] at hcall <;>
    first
    | (have hlen := toSizeT_of_eq _ _ hsize hcall
       simp [hhash, hlen])
    | simp_all

/-- One run of `verify` that returns 0 through a successful primitive: the line
"Signature not valid." is logged exactly when the validity outcome is negative. -/
theorem WolfsslModule.verify_logs_validity (lib : Wolfssl) (self : WolfsslModule)
    (message : List Nat) (message_length : Nat) (signature : List Nat) (signature_length : Nat)
    (hsize : self.commons.get_hash_length < 4294967296)
    (hhash : (self.hash_message lib message message_length).status = 0)
    (hcall : self.verify_call_succeeded lib message message_length signature signature_length) :
    NativeEvent.ESP_LOGE "> Signature not valid."
        ∈ (self.verify lib message message_length signature signature_length).events
      ↔ ¬ self.signature_valid lib message message_length signature signature_length := by
  unfold WolfsslModule.verify_call_succeeded WolfsslModule.verify_primitive_status at hcall
  unfold WolfsslModule.verify WolfsslModule.signature_valid
  simp only [CryptoApiCommons.get_chosen_algorithm]
  cases halg : self.commons.chosen_algorithm <;> simp only [halg] at hcall <;>
    first
    | (have hlen := toSizeT_of_eq _ _ hsize hcall
       simp only [hhash, hlen]
       split_ifs <;> simp_all)
    | (simp only [hhash, hcall]
       split_ifs <;> simp_all)

/-- C4: for every algorithm and any two runs of `verify` in which hashing succeeds
and the verify primitive reports call success (status 0 for ECDSA and EdDSA,
returned length equal to the hash length for RSA), both runs return 0; nothing is
assumed about the validity outcome of either run, so it does not influence the
return code. -/
theorem WolfsslModule.verify_return_ignores_validity
    (lib₁ lib₂ : Wolfssl) (self₁ self₂ : WolfsslModule)
    (message₁ message₂ : List Nat) (message_length₁ message_length₂ : Nat)
    (signature₁ signature₂ : List Nat) (signature_length₁ signature_length₂ : Nat)
    (hsize₁ : self₁.commons.get_hash_length < 4294967296)
    (hsize₂ : self₂.commons.get_hash_length < 4294967296)
    (hhash₁ : (self₁.hash_message lib₁ message₁ message_length₁).status = 0)
    (hhash₂ : (self₂.hash_message lib₂ message₂ message_length₂).status = 0)
    (hcall₁ : self₁.verify_call_succeeded lib₁ message₁ message_length₁ signature₁
      signature_length₁)
    (hcall₂ : self₂.verify_call_succeeded lib₂ message₂ message_length₂ signature₂
      signature_length₂) :
    (self₁.verify lib₁ message₁ message_length₁ signature₁ signature_length₁).ret = 0
    ∧ (self₂.verify lib₂ message₂ message_length₂ signature₂ signature_length₂).ret = 0
    ∧ (self₁.verify lib₁ message₁ message_length₁ signature₁ signature_length₁).ret
      = (self₂.verify lib₂ message₂ message_length₂ signature₂ signature_length₂).ret := by
  have h₁ := WolfsslModule.verify_returns_zero lib₁ self₁ message₁ message_length₁ signature₁
    signature_length₁ hsize₁ hhash₁ hcall₁
  have h₂ := WolfsslModule.verify_returns_zero lib₂ self₂ message₂ message_length₂ signature₂
    signature_length₂ hsize₂ hhash₂ hcall₂
  exact ⟨h₁, h₂, by rw [h₁, h₂]⟩

/-- C4 at concrete inputs: two RSA runs over the same message and signature, one
in which the decrypted digest equals the hash and one in which it does not; both
return 0. -/
theorem WolfsslModule.verify_return_ignores_validity_witness :
    (WolfsslModule.configured .RSA).signature_valid Wolfssl.succeeding [104, 105] 2 [1, 2, 3] 3
    ∧ ¬ (WolfsslModule.configured .RSA).signature_valid Wolfssl.rejecting [104, 105] 2 [1, 2, 3] 3
    ∧ ((WolfsslModule.configured .RSA).verify Wolfssl.succeeding [104, 105] 2 [1, 2, 3] 3).ret = 0
    ∧ ((WolfsslModule.configured .RSA).verify Wolfssl.rejecting [104, 105] 2 [1, 2, 3] 3).ret = 0 :=
  ⟨by decide,
   by decide,
   (WolfsslModule.verify_return_ignores_validity Wolfssl.succeeding Wolfssl.rejecting
      (WolfsslModule.configured .RSA) (WolfsslModule.configured .RSA)
      [104, 105] [104, 105] 2 2 [1, 2, 3] [1, 2, 3] 3 3
      (by decide) (by decide) (by decide) (by decide)
      (by decide)
      (by decide)).1,
   (WolfsslModule.verify_return_ignores_validity Wolfssl.succeeding Wolfssl.rejecting
      (WolfsslModule.configured .RSA) (WolfsslModule.configured .RSA)
      [104, 105] [104, 105] 2 2 [1, 2, 3] [1, 2, 3] 3 3
      (by decide) (by decide) (by decide) (by decide)
      (by decide)
      (by decide)).2.1⟩

/-- C5, the claim refuted at a concrete input: RSA, hashing succeeds, the sign
primitive returns 0 while `*signature_length` is 256. The primitive's return value
differs from `*signature_length` (also after conversion to `size_t`), the source
takes its error branch (it logs `wc_RsaSSL_Sign`), and `sign` returns 0. -/
theorem WolfsslModule.sign_rsa_zero_counterexample :
    ((WolfsslModule.configured .RSA).hash_message (Wolfssl.rsa_sign_returning 0) [104, 105] 2).status
        = 0
    ∧ (WolfsslModule.configured .RSA).sign_primitive_status (Wolfssl.rsa_sign_returning 0)
        [104, 105] 2 256 ≠ 256
    ∧ toSizeT ((WolfsslModule.configured .RSA).sign_primitive_status
        (Wolfssl.rsa_sign_returning 0) [104, 105] 2 256) ≠ 256
    ∧ NativeEvent.log_error "wc_RsaSSL_Sign"
        ∈ ((WolfsslModule.configured .RSA).sign (Wolfssl.rsa_sign_returning 0) [104, 105] 2
            256).events
    ∧ ((WolfsslModule.configured .RSA).sign (Wolfssl.rsa_sign_returning 0) [104, 105] 2 256).ret
        = 0 := by
  refine ⟨by decide, by decide, by decide, by decide, by decide⟩

/-- C5 as amended: `sign` returns the hashing call's status verbatim when that
status is not zero. Otherwise, for the EdDSA and ECDSA algorithms it returns the
sign primitive's status verbatim, so 0 exactly when the primitive succeeded; for RSA
it returns 0 when the primitive's return value, converted to `size_t`, equals
`*signature_length`, and the primitive's return value verbatim when it does not.
Hence `sign` returns 0 exactly when hashing succeeded and either the primitive
passed the test of its algorithm or, for RSA, the primitive returned 0; a primitive
return value that fails the test and is not zero gives a nonzero code. -/
theorem WolfsslModule.sign_return_code (lib : Wolfssl) (self : WolfsslModule)
    (message : List Nat) (message_length : Nat) (signature_length : Nat) :
    ((self.hash_message lib message message_length).status ≠ 0 →
      (self.sign lib message message_length signature_length).ret
        = (self.hash_message lib message message_length).status)
    ∧ ((self.hash_message lib message message_length).status = 0 →
        self.commons.chosen_algorithm ≠ Algorithms.RSA →
      (self.sign lib message message_length signature_length).ret
        = self.sign_primitive_status lib message message_length signature_length)
    ∧ ((self.hash_message lib message message_length).status = 0 →
        self.commons.chosen_algorithm = Algorithms.RSA →
        toSizeT (self.sign_primitive_status lib message message_length signature_length)
          = signature_length →
      (self.sign lib message message_length signature_length).ret = 0)
    ∧ ((self.hash_message lib message message_length).status = 0 →
        self.commons.chosen_algorithm = Algorithms.RSA →
        toSizeT (self.sign_primitive_status lib message message_length signature_length)
          ≠ signature_length →
      (self.sign lib message message_length signature_length).ret
        = self.sign_primitive_status lib message message_length signature_length)
    ∧ ((self.sign lib message message_length signature_length).ret = 0 ↔
        (self.hash_message lib message message_length).status = 0
        ∧ (self.sign_primitive_status lib message message_length signature_length = 0
          ∨ (self.commons.chosen_algorithm = Algorithms.RSA
            ∧ toSizeT (self.sign_primitive_status lib message message_length signature_length)
              = signature_length))) := by
  unfold WolfsslModule.sign WolfsslModule.sign_primitive_status
  simp only [CryptoApiCommons.get_chosen_algorithm]
  by_cases hh : (self.hash_message lib message message_length).status = 0
  · cases halg : self.commons.chosen_algorithm <;> simp only [hh] <;>
      split_ifs <;> simp_all
  · simp [hh]

/-! ## Theorems: the size tables of the wolfSSL adapter -/

/-- C6: `get_public_key_der_size` equals the length of the provider's public-key
encoding for EDDSA_25519 (32) and EDDSA_448 (57), where it is also the value
`get_key_size` returns, for ECDSA_SECP256R1 and ECDSA_BP256R1 (65 = 1 + 2 * 32) and
for ECDSA_SECP521R1 (133 = 1 + 2 * 66); for ECDSA_BP512R1 it returns 133, the entry
of the 521-bit curve, while the uncompressed point of the 512-bit curve has
129 = 1 + 2 * 64 bytes. -/
theorem WolfsslModule.public_key_der_size_table (lib : Wolfssl) (self : WolfsslModule)
    (curve_id : ecc_curve_id) :
    (self.commons.chosen_algorithm ≠ Algorithms.RSA →
      self.commons.chosen_algorithm ≠ Algorithms.ECDSA_BP512R1 →
      provider_public_key_length self.commons.chosen_algorithm
        = some self.get_public_key_der_size)
    ∧ (self.commons.chosen_algorithm = Algorithms.EDDSA_25519
        ∨ self.commons.chosen_algorithm = Algorithms.EDDSA_448 →
      (self.get_public_key_der_size : Int) = self.get_key_size lib curve_id)
    ∧ (self.commons.chosen_algorithm = Algorithms.ECDSA_BP512R1 →
      self.get_public_key_der_size = 133
      ∧ provider_public_key_length self.commons.chosen_algorithm = some 129
      ∧ provider_public_key_length self.commons.chosen_algorithm
        ≠ some self.get_public_key_der_size) := by
  obtain ⟨⟨algorithm, hash, length⟩, rng, ed25519, rsa, ecc, ed448, bits⟩ := self
  cases algorithm <;>
    simp [WolfsslModule.get_public_key_der_size, WolfsslModule.get_key_size,
      CryptoApiCommons.get_chosen_algorithm, provider_public_key_length, curve_field_size,
      ED25519_PUB_KEY_SIZE, ED448_PUB_KEY_SIZE]

/-- The PEM text lengths of the six byte counts in the DER table, computed from the
header, the footer, the base64 characters and the newlines. -/
theorem pem_text_length_values :
    pem_text_length .PUBLICKEY_TYPE 32 = 97 ∧ pem_text_length .PUBLICKEY_TYPE 57 = 130
    ∧ pem_text_length .ECC_PUBLICKEY_TYPE 65 = 142
    ∧ pem_text_length .ECC_PUBLICKEY_TYPE 133 = 235
    ∧ pem_text_length .RSA_PUBLICKEY_TYPE 294 = 459
    ∧ pem_text_length .RSA_PUBLICKEY_TYPE 550 = 808 := by
  decide

/-- C7: for every algorithm, and for RSA with bit length 2048 or 4096,
`get_public_key_pem_size` is the length of the PEM text that wraps
`get_public_key_der_size` bytes under the header and footer of the certificate type
the algorithm's branch of `get_public_key_pem` selects; and when
`get_public_key_pem` returns 0 it has called `wc_DerToPem` with that certificate
type and that capacity and stored the terminator at index
`get_public_key_pem_size`, one past a text of that length. -/
theorem WolfsslModule.public_key_pem_size_table (lib : Wolfssl) (self : WolfsslModule)
    (hrsa : self.commons.chosen_algorithm = Algorithms.RSA →
      self.rsa_key_size = 2048 ∨ self.rsa_key_size = 4096) :
    self.get_public_key_pem_size
        = pem_text_length (pem_cert_type self.commons.chosen_algorithm)
            self.get_public_key_der_size
    ∧ ((self.get_public_key_pem lib).ret = 0 →
        (∃ der_size, NativeEvent.wc_DerToPem der_size self.get_public_key_pem_size
            (pem_cert_type self.commons.chosen_algorithm) ∈ (self.get_public_key_pem lib).events)
        ∧ NativeEvent.write_terminator
            (pem_text_length (pem_cert_type self.commons.chosen_algorithm)
              self.get_public_key_der_size) ∈ (self.get_public_key_pem lib).events) := by
  have hsize : self.get_public_key_pem_size
        = pem_text_length (pem_cert_type self.commons.chosen_algorithm)
            self.get_public_key_der_size := by
    obtain ⟨⟨algorithm, hash, length⟩, rng, ed25519, rsa, ecc, ed448, bits⟩ := self
    cases algorithm
    case RSA =>
      rcases hrsa rfl with h | h <;> simp only at h <;> subst h <;>
        simp [WolfsslModule.get_public_key_pem_size, WolfsslModule.get_public_key_der_size,
          CryptoApiCommons.get_chosen_algorithm, pem_cert_type, pem_text_length_values]
    all_goals
      simp [WolfsslModule.get_public_key_pem_size, WolfsslModule.get_public_key_der_size,
        CryptoApiCommons.get_chosen_algorithm, pem_cert_type, pem_text_length_values]
  refine ⟨hsize, ?_⟩
  rw [← hsize]
  unfold WolfsslModule.get_public_key_pem WolfsslModule.der_to_pem
  simp only [CryptoApiCommons.get_chosen_algorithm]
  cases halg : self.commons.chosen_algorithm <;> simp only [pem_cert_type] <;>
    split_ifs <;> intro h0 <;> first
      | exact absurd h0 (by assumption)
      | (exfalso; simp only at h0; omega)
      | (constructor <;> simp)

/-- C7 at a concrete input: RSA with 4096 bits, 550 DER bytes, 808 PEM bytes. -/
theorem WolfsslModule.public_key_pem_size_table_witness :
    ((WolfsslModule.configured .RSA).with_other_members 4096 .MY_SHA_256 0).get_public_key_pem_size
        = pem_text_length .RSA_PUBLICKEY_TYPE 550
    ∧ pem_text_length .RSA_PUBLICKEY_TYPE 550 = 808 :=
  ⟨(WolfsslModule.public_key_pem_size_table Wolfssl.succeeding
      ((WolfsslModule.configured .RSA).with_other_members 4096 .MY_SHA_256 0)
      (fun _ => Or.inr rfl)).1,
   by decide⟩

/-- C8, the claim refuted: for ECDSA_SECP256R1, take two runs of `sign` that both
succeed, the provider's primitive storing 70 bytes in one and 72 in the other.
Whatever the value of the library's `ECC_MAX_SIG_SIZE`, `get_signature_size` cannot
equal the length stored in both runs. -/
theorem WolfsslModule.signature_size_ecdsa_counterexample :
    ¬ ∃ max_size : Int, ∀ written ∈ [70, 72],
        ((WolfsslModule.configured .ECDSA_SECP256R1).sign
            (Wolfssl.ecdsa_signing max_size written) [104, 105] 2 256).ret = 0
        → (WolfsslModule.configured .ECDSA_SECP256R1).get_signature_size
            (Wolfssl.ecdsa_signing max_size written)
          = (((WolfsslModule.configured .ECDSA_SECP256R1).sign
              (Wolfssl.ecdsa_signing max_size written) [104, 105] 2 256).signature_length : Int) := by
  rintro ⟨max_size, h⟩
  have h70 := h 70 (by simp) rfl
  have h72 := h 72 (by simp) rfl
  have e70 : (WolfsslModule.configured .ECDSA_SECP256R1).get_signature_size
      (Wolfssl.ecdsa_signing max_size 70) = max_size := rfl
  have e72 : (WolfsslModule.configured .ECDSA_SECP256R1).get_signature_size
      (Wolfssl.ecdsa_signing max_size 72) = max_size := rfl
  have s70 : ((WolfsslModule.configured .ECDSA_SECP256R1).sign
      (Wolfssl.ecdsa_signing max_size 70) [104, 105] 2 256).signature_length = 70 := rfl
  have s72 : ((WolfsslModule.configured .ECDSA_SECP256R1).sign
      (Wolfssl.ecdsa_signing max_size 72) [104, 105] 2 256).signature_length = 72 := rfl
  rw [e70, s70] at h70
  rw [e72, s72] at h72
  rw [h70] at h72
  exact absurd h72 (by decide)

/-- C8 as amended: `get_signature_size` is 64 for EDDSA_25519, 114 for EDDSA_448,
and for RSA after `gen_rsa_keys(bitLength, e)` it is bitLength / 8 (256 for 2048,
512 for 4096); for each of the four ECDSA curves it is the library's constant
`ECC_MAX_SIG_SIZE`, the same for all four, whatever length `sign` stores in
`*signature_length`. -/
theorem WolfsslModule.signature_size_table (lib : Wolfssl) (self : WolfsslModule)
    (bits : Nat) (e : Int) :
    (self.commons.chosen_algorithm = Algorithms.EDDSA_25519 →
      self.get_signature_size lib = 64)
    ∧ (self.commons.chosen_algorithm = Algorithms.EDDSA_448 →
      self.get_signature_size lib = 114)
    ∧ (self.commons.chosen_algorithm = Algorithms.RSA →
      (self.gen_rsa_keys lib bits e).self.get_signature_size lib = ((bits / 8 : Nat) : Int)
      ∧ (bits = 2048 → (self.gen_rsa_keys lib bits e).self.get_signature_size lib = 256)
      ∧ (bits = 4096 → (self.gen_rsa_keys lib bits e).self.get_signature_size lib = 512))
    ∧ (self.commons.chosen_algorithm = Algorithms.ECDSA_SECP256R1
        ∨ self.commons.chosen_algorithm = Algorithms.ECDSA_SECP521R1
        ∨ self.commons.chosen_algorithm = Algorithms.ECDSA_BP256R1
        ∨ self.commons.chosen_algorithm = Algorithms.ECDSA_BP512R1 →
      self.get_signature_size lib = lib.ECC_MAX_SIG_SIZE) := by
  obtain ⟨⟨algorithm, hash, length⟩, rng, ed25519, rsa, ecc, ed448, size⟩ := self
  refine ⟨?_, ?_, ?_, ?_⟩
  · rintro h
    simp only at h
    subst h
    simp [WolfsslModule.get_signature_size, CryptoApiCommons.get_chosen_algorithm,
      ED25519_SIG_SIZE]
  · rintro h
    simp only at h
    subst h
    simp [WolfsslModule.get_signature_size, CryptoApiCommons.get_chosen_algorithm,
      ED448_SIG_SIZE]
  · rintro h
    simp only at h
    subst h
    have key : ∀ b : Nat,
        (WolfsslModule.gen_rsa_keys lib
          { commons := { chosen_algorithm := .RSA, chosen_hash := hash,
                         shake256_hash_length := length },
            rng := rng, wolf_ed25519_key := ed25519, wolf_rsa_key := rsa, wolf_ecc_key := ecc,
            wolf_ed448_key := ed448, rsa_key_size := size } b e).self.get_signature_size lib
          = ((b / 8 : Nat) : Int) := by
      intro b
      unfold WolfsslModule.gen_rsa_keys
      dsimp only
      split_ifs <;>
        simp [WolfsslModule.get_signature_size, CryptoApiCommons.get_chosen_algorithm]
    refine ⟨key bits, ?_, ?_⟩
    · intro hb
      subst hb
      rw [key]
      rfl
    · intro hb
      subst hb
      rw [key]
      rfl
  · rintro (h | h | h | h) <;> simp only at h <;> subst h <;>
      simp [WolfsslModule.get_signature_size, CryptoApiCommons.get_chosen_algorithm]

/-! ## Theorems: the lifecycle of the wolfSSL adapter -/

/-- C9: for every algorithm, if `init` returned 0 and no later assignment has
reached the recorded algorithm or the pointers, then `init` allocated the randomness
source and the one key structure of the algorithm (and nothing else), and `close`
hands exactly those two blocks, at the addresses `init` obtained, to the release
routines (and nothing else). -/
theorem WolfsslModule.close_releases_what_init_allocated (lib : Wolfssl) (self : WolfsslModule)
    (algorithm : Algorithms) (hash : Hashes) (length_of_shake256 : Nat)
    (later_rsa_key_size : Nat) (later_hash : Hashes) (later_length : Nat)
    (hret : (self.init lib algorithm hash length_of_shake256).ret = 0) :
    allocations (self.init lib algorithm hash length_of_shake256).events
        = [(NativeStruct.WC_RNG, lib.malloc .WC_RNG),
           (key_structure algorithm, lib.malloc (key_structure algorithm))]
    ∧ releases
        (((self.init lib algorithm hash length_of_shake256).self.with_other_members
            later_rsa_key_size later_hash later_length).close)
        = [(NativeStruct.WC_RNG, some (lib.malloc .WC_RNG)),
           (key_structure algorithm, some (lib.malloc (key_structure algorithm)))] := by
  unfold WolfsslModule.init at hret ⊢
  simp only [CryptoApiCommons.get_chosen_algorithm] at hret ⊢
  by_cases hrng : lib.wc_InitRng = 0
  · cases algorithm <;> simp only [hrng] at hret ⊢ <;> split_ifs at hret ⊢ <;>
      first
      | exact absurd hret (by assumption)
      | simp [allocations, releases, NativeEvent.allocation, NativeEvent.release,
          WolfsslModule.close, WolfsslModule.with_other_members, key_structure,
          CryptoApiCommons.get_chosen_algorithm]
  · rw [if_pos hrng] at hret
    exact absurd hret hrng

/-- C9 at a concrete input: a fresh module, `init(EDDSA_448, SHA-512, 0)` against a
library in which every call succeeds, then `gen_rsa_keys`-like assignments, then
`close`. -/
theorem WolfsslModule.close_releases_what_init_allocated_witness :
    ((WolfsslModule.configured .RSA).init Wolfssl.succeeding .EDDSA_448 .MY_SHA_512 0).ret = 0
    ∧ allocations
        ((WolfsslModule.configured .RSA).init Wolfssl.succeeding .EDDSA_448 .MY_SHA_512 0).events
      = [(NativeStruct.WC_RNG, 4096), (NativeStruct.ed448_key, 20480)]
    ∧ releases
        ((((WolfsslModule.configured .RSA).init Wolfssl.succeeding .EDDSA_448 .MY_SHA_512
            0).self.with_other_members 2048 .MY_SHA_256 0).close)
      = [(NativeStruct.WC_RNG, some 4096), (NativeStruct.ed448_key, some 20480)] :=
  ⟨by decide,
   WolfsslModule.close_releases_what_init_allocated Wolfssl.succeeding
     (WolfsslModule.configured .RSA) .EDDSA_448 .MY_SHA_512 0 2048 .MY_SHA_256 0 (by decide)⟩

/-- The two points at which `init` can fail, on a module fresh from its
constructor. When `wc_InitRng` fails, `init` has allocated the randomness source
only, and `close` still hands the key pointer of the recorded algorithm, which no
assignment has reached, to that key's release routine. When `wc_InitRng` succeeds
and the key initialiser fails, `close` releases the two blocks `init` allocated. -/
theorem WolfsslModule.close_after_failed_init (lib : Wolfssl) (commons : CryptoApiCommons)
    (junk : Nat) (algorithm : Algorithms) (hash : Hashes) (length_of_shake256 : Nat) :
    (lib.wc_InitRng ≠ 0 →
      ((WolfsslModule.new commons junk).init lib algorithm hash length_of_shake256).ret
          = lib.wc_InitRng
      ∧ allocations
          ((WolfsslModule.new commons junk).init lib algorithm hash length_of_shake256).events
          = [(NativeStruct.WC_RNG, lib.malloc .WC_RNG)]
      ∧ releases
          (((WolfsslModule.new commons junk).init lib algorithm hash
            length_of_shake256).self.close)
          = [(NativeStruct.WC_RNG, some (lib.malloc .WC_RNG)),
             (key_structure algorithm, none)])
    ∧ (lib.wc_InitRng = 0 → lib.key_init_status algorithm ≠ 0 →
      ((WolfsslModule.new commons junk).init lib algorithm hash length_of_shake256).ret
          = lib.key_init_status algorithm
      ∧ allocations
          ((WolfsslModule.new commons junk).init lib algorithm hash length_of_shake256).events
          = [(NativeStruct.WC_RNG, lib.malloc .WC_RNG),
             (key_structure algorithm, lib.malloc (key_structure algorithm))]
      ∧ releases
          (((WolfsslModule.new commons junk).init lib algorithm hash
            length_of_shake256).self.close)
          = [(NativeStruct.WC_RNG, some (lib.malloc .WC_RNG)),
             (key_structure algorithm, some (lib.malloc (key_structure algorithm)))]) := by
  unfold WolfsslModule.init
  simp only [CryptoApiCommons.get_chosen_algorithm, WolfsslModule.new]
  constructor
  · intro hrng
    rw [if_pos hrng]
    cases algorithm <;>
      simp [allocations, releases, NativeEvent.allocation, NativeEvent.release,
        WolfsslModule.close, key_structure, CryptoApiCommons.get_chosen_algorithm]
  · intro hrng hkey
    have hnot : ¬ lib.wc_InitRng ≠ 0 := by simp [hrng]
    rw [if_neg hnot]
    cases algorithm <;> simp only [Wolfssl.key_init_status] at hkey <;>
      simp [hkey, allocations, releases, NativeEvent.allocation, NativeEvent.release,
        WolfsslModule.close, key_structure, CryptoApiCommons.get_chosen_algorithm,
        Wolfssl.key_init_status]

/-- C10 at the failing input: a fresh module, `init(EDDSA_25519, SHA-256, 0)` while
`wc_InitRng` fails with -199, then `close`. `init` returns -199 having allocated the
randomness source only; `close` calls `wc_ed25519_free` on the pointer
`wolf_ed25519_key`, which no assignment has reached: it frees a key structure that
was never allocated. -/
theorem WolfsslModule.close_after_failed_rng_init :
    ((WolfsslModule.configured .EDDSA_25519).init (Wolfssl.rng_failing (-199)) .EDDSA_25519
        .MY_SHA_256 0).ret = -199
    ∧ allocations
        ((WolfsslModule.configured .EDDSA_25519).init (Wolfssl.rng_failing (-199)) .EDDSA_25519
          .MY_SHA_256 0).events
      = [(NativeStruct.WC_RNG, 4096)]
    ∧ ((WolfsslModule.configured .EDDSA_25519).init (Wolfssl.rng_failing (-199)) .EDDSA_25519
          .MY_SHA_256 0).self.close
      = [NativeEvent.wolfCrypt_Cleanup, NativeEvent.wc_FreeRng (some 4096),
         NativeEvent.wc_ed25519_free none, NativeEvent.ESP_LOGI "> wolfssl closed."]
    ∧ releases
        (((WolfsslModule.configured .EDDSA_25519).init (Wolfssl.rng_failing (-199)) .EDDSA_25519
          .MY_SHA_256 0).self.close)
      = [(NativeStruct.WC_RNG, some 4096), (NativeStruct.ed25519_key, none)] := by
  refine ⟨by decide, by decide, by decide, by decide⟩

/-! ## Theorems: the facade over its lifetime -/

/-- C11 at the failing inputs, on a facade fresh from its constructor whose
adapters would all return 0. After `init(MBEDTLS_LIB, ...)` has deleted the wolfSSL
and micro-ecc adapters: a later `init(WOLFSSL_LIB, ...)` changes the provider and
invokes `init` on the deleted wolfSSL adapter, and a following `gen_keys` invokes
it again; a later `init(MBEDTLS_LIB, ...)` deletes both adapters a second time; and
with no later call at all the destructor deletes both a second time. -/
theorem CryptoAPI.provider_change_after_release :
    (CryptoAPI.run (Adapters.constant 0)
        [.init ⟨.MBEDTLS_LIB, .ECDSA_SECP256R1, .MY_SHA_256, 0⟩,
         .init ⟨.WOLFSSL_LIB, .ECDSA_SECP256R1, .MY_SHA_256, 0⟩, .gen_keys]
        (⟨.MICROECC_LIB⟩, [])
      = (⟨.WOLFSSL_LIB⟩,
         [Event.ESP_LOGI
            "> INITIALIZED LIBRARY [ MBEDTLS ] WITH ALGORITHM [ ECDSA_SECP256R1 ] AND HASH [ SHA_256 ]",
          Event.delete .WOLFSSL_LIB, Event.delete .MICROECC_LIB,
          Event.invoke .MBEDTLS_LIB (.init_algorithm_hash .ECDSA_SECP256R1 .MY_SHA_256),
          Event.ESP_LOGI
            "> INITIALIZED LIBRARY [ WOLFSSL ] WITH ALGORITHM [ ECDSA_SECP256R1 ] AND HASH [ SHA_256 ]",
          Event.invoke .WOLFSSL_LIB (.init_algorithm_hash_length .ECDSA_SECP256R1 .MY_SHA_256 0),
          Event.invoke .WOLFSSL_LIB .gen_keys]))
    ∧ invoked_after_delete []
        (CryptoAPI.run (Adapters.constant 0)
          [.init ⟨.MBEDTLS_LIB, .ECDSA_SECP256R1, .MY_SHA_256, 0⟩,
           .init ⟨.WOLFSSL_LIB, .ECDSA_SECP256R1, .MY_SHA_256, 0⟩, .gen_keys]
          (⟨.MICROECC_LIB⟩, [])).2 = true
    ∧ deleted_twice []
        (CryptoAPI.run (Adapters.constant 0)
          [.init ⟨.MBEDTLS_LIB, .ECDSA_SECP256R1, .MY_SHA_256, 0⟩,
           .init ⟨.MBEDTLS_LIB, .ECDSA_SECP256R1, .MY_SHA_256, 0⟩]
          (⟨.MICROECC_LIB⟩, [])).2 = true
    ∧ deleted_twice []
        ((CryptoAPI.run (Adapters.constant 0)
          [.init ⟨.MBEDTLS_LIB, .ECDSA_SECP256R1, .MY_SHA_256, 0⟩]
          (⟨.MICROECC_LIB⟩, [])).2 ++ CryptoAPI.destroy) = true := by
  refine ⟨by decide, by decide, by decide, by decide⟩

/-- With mbedTLS selected, a facade call other than `init` leaves the facade as it
is and invokes the mbedTLS adapter only. -/
theorem CryptoAPI.step_with_mbedtls (adapters : Adapters) (history : List Event)
    (self : CryptoAPI) (call : FacadeCall)
    (hself : self.chosen_library = Libraries.MBEDTLS_LIB) (hcall : call.is_init = false) :
    (CryptoAPI.step adapters history self call).1 = self
    ∧ ∀ e ∈ (CryptoAPI.step adapters history self call).2,
        ∃ c, e = Event.invoke .MBEDTLS_LIB c := by
  cases call <;>
    simp_all [CryptoAPI.step, FacadeCall.is_init, CryptoAPI.get_signature_size,
      CryptoAPI.gen_rsa_keys, CryptoAPI.gen_keys, CryptoAPI.sign, CryptoAPI.verify,
      CryptoAPI.sign_without_length, CryptoAPI.verify_without_length, CryptoAPI.close,
      CryptoAPI.invoke]

/-- With mbedTLS selected, a sequence of facade calls without `init` leaves the
facade as it is and adds invocations of the mbedTLS adapter only. -/
theorem CryptoAPI.run_with_mbedtls (adapters : Adapters) (calls : List FacadeCall)
    (hcalls : ∀ c ∈ calls, c.is_init = false) (self : CryptoAPI) (history : List Event)
    (hself : self.chosen_library = Libraries.MBEDTLS_LIB) :
    ∃ extra, CryptoAPI.run adapters calls (self, history) = (self, history ++ extra)
      ∧ ∀ e ∈ extra, ∃ c, e = Event.invoke .MBEDTLS_LIB c := by
  induction calls generalizing history with
  | nil => exact ⟨[], by simp [CryptoAPI.run], by simp⟩
  | cons call rest ih =>
    have hstep := CryptoAPI.step_with_mbedtls adapters history self call hself
      (hcalls call (by simp))
    obtain ⟨extra, hrun, hextra⟩ :=
      ih (fun c hc => hcalls c (by simp [hc]))
        (history ++ (CryptoAPI.step adapters history self call).2)
    refine ⟨(CryptoAPI.step adapters history self call).2 ++ extra, ?_, ?_⟩
    · simp only [CryptoAPI.run, hstep.1, hrun, List.append_assoc]
    · intro e he
      rcases List.mem_append.mp he with h | h
      · exact hstep.2 e h
      · exact hextra e h

/-- Invocations of the mbedTLS adapter are no invocation of a deleted adapter and
no second deletion, as long as the mbedTLS adapter is not among the deleted. -/
theorem invocations_of_live_adapter (released : List Libraries) (events : List Event)
    (hlive : Libraries.MBEDTLS_LIB ∉ released)
    (hevents : ∀ e ∈ events, ∃ c, e = Event.invoke .MBEDTLS_LIB c) :
    invoked_after_delete released events = false ∧ deleted_twice released events = false := by
  induction events with
  | nil => simp [invoked_after_delete, deleted_twice]
  | cons e rest ih =>
    obtain ⟨c, hc⟩ := hevents e (by simp)
    have hrest := ih (fun x hx => hevents x (by simp [hx]))
    subst hc
    simp [invoked_after_delete, deleted_twice, hlive, hrest.1, hrest.2]

/-- What holds of the facade after `init(MBEDTLS_LIB, ...)` on a fresh instance:
as long as no later call is `init`, the provider stays MBEDTLS_LIB, no operation of
a deleted adapter is invoked and no adapter is deleted a second time (up to, and
not including, the destructor). -/
theorem CryptoAPI.no_init_after_release_is_safe (adapters : Adapters) (fresh : CryptoAPI)
    (algorithm : Algorithms) (hash : Hashes) (length_of_shake256 : Nat)
    (calls : List FacadeCall) (hcalls : ∀ c ∈ calls, c.is_init = false) :
    (CryptoAPI.run adapters
        (.init ⟨.MBEDTLS_LIB, algorithm, hash, length_of_shake256⟩ :: calls)
        (fresh, [])).1.chosen_library = Libraries.MBEDTLS_LIB
    ∧ invoked_after_delete []
        (CryptoAPI.run adapters
          (.init ⟨.MBEDTLS_LIB, algorithm, hash, length_of_shake256⟩ :: calls)
          (fresh, [])).2 = false
    ∧ deleted_twice []
        (CryptoAPI.run adapters
          (.init ⟨.MBEDTLS_LIB, algorithm, hash, length_of_shake256⟩ :: calls)
          (fresh, [])).2 = false := by
  have hinit : CryptoAPI.step adapters [] fresh
        (.init ⟨.MBEDTLS_LIB, algorithm, hash, length_of_shake256⟩)
      = (⟨.MBEDTLS_LIB⟩,
         CryptoAPI.print_init_configuration .MBEDTLS_LIB algorithm hash length_of_shake256
          ++ [Event.delete .WOLFSSL_LIB, Event.delete .MICROECC_LIB]
          ++ [Event.invoke .MBEDTLS_LIB (.init_algorithm_hash algorithm hash)]) := by
    simp [CryptoAPI.step, CryptoAPI.init, CryptoAPI.invoke]
  obtain ⟨extra, hrun, hextra⟩ := CryptoAPI.run_with_mbedtls adapters calls hcalls
    ⟨.MBEDTLS_LIB⟩
    ([] ++ (CryptoAPI.print_init_configuration .MBEDTLS_LIB algorithm hash length_of_shake256
          ++ [Event.delete .WOLFSSL_LIB, Event.delete .MICROECC_LIB]
          ++ [Event.invoke .MBEDTLS_LIB (.init_algorithm_hash algorithm hash)])) rfl
  have hsafe := invocations_of_live_adapter [.MICROECC_LIB, .WOLFSSL_LIB] extra (by decide) hextra
  simp only [CryptoAPI.run, hinit, hrun]
  refine ⟨?_, ?_, ?_⟩
  · trivial
  · unfold CryptoAPI.print_init_configuration
    dsimp only
    split_ifs <;> simp [invoked_after_delete, hsafe.1]
  · unfold CryptoAPI.print_init_configuration
    dsimp only
    split_ifs <;> simp [deleted_twice, hsafe.2]

/-! ## Theorems: key generation of the wolfSSL adapter -/

/-- C12: `gen_keys` calls exactly one key-generation primitive, selected by the
algorithm: for EDDSA_25519 `wc_ed25519_make_key` with key size 32 on the ed25519
key; for EDDSA_448 `wc_ed448_make_key` with key size 57 on the ed448 key; for each
ECDSA algorithm `wc_ecc_make_key_ex` on the ECC key with the algorithm's own curve
identifier and the size the library reports for that curve; for RSA never
`wc_MakeRsaKey` but `wc_ecc_make_key_ex` on the ECC key with curve identifier
`ECC_BRAINPOOLP512R1` and key size `rsa_key_size / 8`. `init` with RSA allocates no
ECC key and leaves the ECC key pointer as it was. -/
theorem WolfsslModule.gen_keys_primitive (lib : Wolfssl) (self : WolfsslModule)
    (hash : Hashes) (length_of_shake256 : Nat) :
    (self.commons.chosen_algorithm = Algorithms.EDDSA_25519 →
      (self.gen_keys lib).events.filter NativeEvent.is_key_generation
        = [NativeEvent.wc_ed25519_make_key self.rng 32 self.wolf_ed25519_key])
    ∧ (self.commons.chosen_algorithm = Algorithms.EDDSA_448 →
      (self.gen_keys lib).events.filter NativeEvent.is_key_generation
        = [NativeEvent.wc_ed448_make_key self.rng 57 self.wolf_ed448_key])
    ∧ (self.commons.chosen_algorithm = Algorithms.ECDSA_SECP256R1 →
      (self.gen_keys lib).events.filter NativeEvent.is_key_generation
        = [NativeEvent.wc_ecc_make_key_ex self.rng
            (lib.wc_ecc_get_curve_size_from_id .ECC_SECP256R1) self.wolf_ecc_key
            .ECC_SECP256R1])
    ∧ (self.commons.chosen_algorithm = Algorithms.ECDSA_SECP521R1 →
      (self.gen_keys lib).events.filter NativeEvent.is_key_generation
        = [NativeEvent.wc_ecc_make_key_ex self.rng
            (lib.wc_ecc_get_curve_size_from_id .ECC_SECP521R1) self.wolf_ecc_key
            .ECC_SECP521R1])
    ∧ (self.commons.chosen_algorithm = Algorithms.ECDSA_BP256R1 →
      (self.gen_keys lib).events.filter NativeEvent.is_key_generation
        = [NativeEvent.wc_ecc_make_key_ex self.rng
            (lib.wc_ecc_get_curve_size_from_id .ECC_BRAINPOOLP256R1) self.wolf_ecc_key
            .ECC_BRAINPOOLP256R1])
    ∧ (self.commons.chosen_algorithm = Algorithms.ECDSA_BP512R1 →
      (self.gen_keys lib).events.filter NativeEvent.is_key_generation
        = [NativeEvent.wc_ecc_make_key_ex self.rng
            (lib.wc_ecc_get_curve_size_from_id .ECC_BRAINPOOLP512R1) self.wolf_ecc_key
            .ECC_BRAINPOOLP512R1])
    ∧ (self.commons.chosen_algorithm = Algorithms.RSA →
      (self.gen_keys lib).events.filter NativeEvent.is_key_generation
        = [NativeEvent.wc_ecc_make_key_ex self.rng ((self.rsa_key_size / 8 : Nat) : Int)
            self.wolf_ecc_key .ECC_BRAINPOOLP512R1])
    ∧ ((self.init lib .RSA hash length_of_shake256).self.wolf_ecc_key = self.wolf_ecc_key
      ∧ ∀ address, (NativeStruct.ecc_key, address)
          ∉ allocations (self.init lib .RSA hash length_of_shake256).events) := by
  obtain ⟨⟨algorithm, chosen_hash, length⟩, rng, ed25519, rsa, ecc, ed448, bits⟩ := self
  refine ⟨?_, ?_, ?_, ?_, ?_, ?_, ?_, ?_⟩
  case refine_8 =>
    unfold WolfsslModule.init
    simp only [CryptoApiCommons.get_chosen_algorithm]
    split_ifs <;>
      simp [allocations, NativeEvent.allocation]
  all_goals
    intro h
    simp only at h
    subst h
    unfold WolfsslModule.gen_keys
    simp only [CryptoApiCommons.get_chosen_algorithm]
    split_ifs <;>
      simp [NativeEvent.is_key_generation, WolfsslModule.get_key_size,
        WolfsslModule.get_ecc_curve_id, CryptoApiCommons.get_chosen_algorithm,
        ED25519_PUB_KEY_SIZE, ED448_PUB_KEY_SIZE]

/-- C12 at a concrete input: a fresh module, `init(RSA, SHA-256, 0)` and
`gen_rsa_keys(2048, 65537)` against a library in which every call succeeds, then
`gen_keys`: the one key-generation call is `wc_ecc_make_key_ex` with key size 256
and curve `ECC_BRAINPOOLP512R1` on the ECC key pointer, which no assignment has
reached. -/
theorem WolfsslModule.gen_keys_primitive_witness :
    ((((WolfsslModule.configured .RSA).init Wolfssl.succeeding .RSA .MY_SHA_256 0).self.gen_rsa_keys
        Wolfssl.succeeding 2048 65537).self.gen_keys Wolfssl.succeeding).events.filter
        NativeEvent.is_key_generation
      = [NativeEvent.wc_ecc_make_key_ex (some 4096) 256 none .ECC_BRAINPOOLP512R1] :=
  (WolfsslModule.gen_keys_primitive Wolfssl.succeeding
    (((WolfsslModule.configured .RSA).init Wolfssl.succeeding .RSA .MY_SHA_256 0).self.gen_rsa_keys
      Wolfssl.succeeding 2048 65537).self .MY_SHA_256 0).2.2.2.2.2.2.1 rfl
